import Mathlib

/-!
The mic3d render pipeline (`vdp1-mic3d/mic3d/render.c`).

A shallow embedding of the per-frame transform / cull / orient / emit pipeline.

* `int16_t`, `int32_t` and `fix16_t` values are integers; every operation whose C result
  is narrowed to 16 or 32 bits goes through `int16` / `int32` (two's complement wrap).
* The scratch "working state" `render_transform_t`, the command pool, the pool cursor and
  the visible count are explicit fields of the state that every function passes along.
* Constants, bit-field layouts and collaborators that are declared in headers outside
  `render.c` (`internal.h`, the display library, lighting, depth sort) are the fields of
  `Env`.
* Links, pool slots, the pool cursor and the visible count, whose C types are declared
  outside `render.c`, are natural numbers; C arrays are functions from the index.
* Calls to collaborators are recorded, in order, in `State.trace`. The debug output, the
  performance counter and the interrupt mask of `render_mesh_transform` are left out.
-/

namespace Mic3d

/-! ## Machine integers -/

/-- Reinterpretation of an integer as a two's complement `int32_t`. -/
def int32 (x : Int) : Int := (x + 2147483648) % 4294967296 - 2147483648

/-- Reinterpretation of an integer as a two's complement `int16_t`. -/
def int16 (x : Int) : Int := (x + 32768) % 65536 - 32768

/-- Modelled from the spec: `fix16_min` of the fixed-point library, the minimum of two
depths ("minimum of the four corner depths"). -/
def fix16_min (a b : Int) : Int := min a b

/-- Modelled from the spec: `fix16_max` of the fixed-point library, the maximum of two
depths ("clamp z to be at least near", "maximum of the four corner depths"). -/
def fix16_max (a b : Int) : Int := max a b

/-! ## Data model -/

/-- A C array of four elements (`screen_points[4]`, `z_values[4]`, `clip_flags[4]`,
`indices.p[4]`). -/
structure Quad (α : Type) where
  e0 : α
  e1 : α
  e2 : α
  e3 : α
deriving DecidableEq, Repr

/-- Array read `a[i]` for a four element array. -/
def Quad.get {α : Type} (a : Quad α) (i : Nat) : α :=
  match i with
  | 0 => a.e0
  | 1 => a.e1
  | 2 => a.e2
  | _ => a.e3

/-- Array write `a[i] = v` for a four element array. -/
def Quad.set {α : Type} (a : Quad α) (i : Nat) (v : α) : Quad α :=
  match i with
  | 0 => { a with e0 := v }
  | 1 => { a with e1 := v }
  | 2 => { a with e2 := v }
  | 3 => { a with e3 := v }
  | _ => a

/-- Screen point, two `int16_t` coordinates. -/
structure int16_vec2_t where
  x : Int
  y : Int
deriving DecidableEq, Repr

/-- Three `fix16_t` coordinates. -/
structure fix16_vec3_t where
  x : Int
  y : Int
  z : Int
deriving DecidableEq, Repr

/-- A 4x3 fixed-point matrix, read through `frow[r][c]` with `r < 3`, `c < 4`. -/
structure fix16_mat43_t where
  frow : Nat → Nat → Int

/-- The first three entries of row `r`, as `(const fix16_vec3_t *)&m.row[r]`. -/
def fix16_mat43_t.row (m : fix16_mat43_t) (r : Nat) : fix16_vec3_t :=
  ⟨m.frow r 0, m.frow r 1, m.frow r 2⟩

/-- Modelled from the spec: the sort policy of a polygon, an enumeration declared in a
header outside `render.c`. The spec names CENTER, MIN and MAX; `other` stands for any
further enumerator, which the `switch` sends to `default:`. -/
inductive sort_type_t where
  | SORT_TYPE_CENTER
  | SORT_TYPE_MIN
  | SORT_TYPE_MAX
  | other (code : Nat)
deriving DecidableEq, Repr

/-- Texture record returned by the texture list. -/
structure texture_t where
  vram_index : Nat
  size : Nat
deriving DecidableEq, Repr

/-- Per-polygon source attribute of a mesh (read-only). `control` and `draw_mode` hold the
`raw` words of the two bit-field unions. -/
structure attribute_t where
  control : Nat
  draw_mode : Nat
  texture_slot : Nat
  palette : Nat
  shading_slot : Nat
deriving DecidableEq, Repr

/-- The mutable copy `rw_attribute` of the working state. -/
structure rw_attribute_t where
  control : Nat
  draw_mode : Nat
  shading_slot : Nat
deriving DecidableEq, Repr

/-- The mesh: C arrays with their counts. -/
structure mesh_t where
  points : Nat → fix16_vec3_t
  points_count : Nat
  polygons : Nat → Quad Nat
  attributes : Nat → attribute_t
  polygons_count : Nat

/-- Per-polygon working state. `ro_attribute` is the record the C pointer points at. -/
structure render_transform_t where
  view_matrix : fix16_mat43_t
  screen_points : Quad int16_vec2_t
  z_values : Quad Int
  clip_flags : Quad Nat
  and_flags : Nat
  or_flags : Nat
  indices : Quad Nat
  ro_attribute : attribute_t
  rw_attribute : rw_attribute_t

/-- One record of the display command list. -/
structure vdp1_cmdt_t where
  cmd_ctrl : Nat
  cmd_link : Nat
  cmd_pmod : Nat
  cmd_colr : Nat
  cmd_srca : Nat
  cmd_size : Nat
  cmd_vertices : Quad int16_vec2_t
  cmd_grda : Nat
deriving DecidableEq, Repr

/-- A pointer to a command record: either a record of the display command table
(`VDP1_CMD_TABLE(index, 0)`) or slot `link` of the command pool. -/
inductive cmdt_ptr where
  | table (index : Nat)
  | pool (slot : Nat)
deriving DecidableEq, Repr

/-- A call to a collaborator, with its arguments. -/
inductive Event where
  | cpu_divu_fix16_set (dividend divisor : Int)
  | light_transform
  | light_polygon_process
  | sort_start
  | sort_insert (link : Nat) (z : Int)
  | sort_iterate
  | vdp1_sync_cmdt_put (base count index : Nat)
  | light_gst_put
deriving DecidableEq, Repr

/-- Constants, bit-field layouts and collaborators declared outside `render.c`. -/
structure Env where
  SCREEN_WIDTH : Int
  SCREEN_HEIGHT : Int
  CLIP_BIT_LEFT : Nat
  CLIP_BIT_RIGHT : Nat
  CLIP_BIT_TOP : Nat
  CLIP_BIT_BOTTOM : Nat
  VDP1_CMDT_CHAR_FLIP_H : Nat
  VDP1_CMDT_CHAR_FLIP_V : Nat
  VDP1_CMDT_LINK_TYPE_JUMP_NEXT : Nat
  VDP1_CMDT_LINK_TYPE_JUMP_ASSIGN : Nat
  VDP1_CMDT_LINK_TYPE_JUMP_CALL : Nat
  VDP1_CMDT_LINK_TYPE_JUMP_RETURN : Nat
  PLANE_TYPE_DOUBLE : Nat
  /-- Bit-field read `control.plane_type` from the raw control word. -/
  plane_type : Nat → Nat
  /-- Bit-field read `control.sort_type` from the raw control word. -/
  sort_type : Nat → sort_type_t
  /-- Bit-field read `control.use_texture` from the raw control word. -/
  use_texture : Nat → Bool
  /-- Position of the one-bit field `draw_mode.pre_clipping_disable` in the raw word. -/
  PRE_CLIPPING_DISABLE_BIT : Nat
  /-- Texture list `tlist_get()`, indexed by slot. -/
  tlist_get : Nat → texture_t
  /-- Dot product of the fixed-point library. -/
  fix16_vec3_dot : fix16_vec3_t → fix16_vec3_t → Int
  /-- Quotient delivered by the division unit for `(dividend, divisor)`. -/
  cpu_divu_quotient : Int → Int → Int
  /-- Integer part of a fixed-point product. -/
  fix16_int32_mul : Int → Int → Int
  /-- Matrix product of the fixed-point library. -/
  fix16_mat43_mul : fix16_mat43_t → fix16_mat43_t → fix16_mat43_t
  /-- Top of the world matrix stack. -/
  matrix_top : fix16_mat43_t
  /-- Inverted view matrix of the camera. -/
  camera_view_invert : fix16_mat43_t
  /-- Display library: new control word after `vdp1_cmdt_link_type_set(cmdt, type)`. -/
  vdp1_cmdt_link_type_set : Nat → Nat → Nat
  /-- Lighting: shading slot left in `rw_attribute` by the per-polygon hook, from the
  calls made so far and the working state. -/
  light_shading_slot : List Event → render_transform_t → Nat
  /-- Depth sort: the links handed to the visitor, in order, for the singles inserted
  since the last reset. -/
  sort_iterate : List (Nat × Int) → List Nat
  /-- `MIN_FOV_ANGLE`, the value of `DEG2ANGLE(20.0f)`. -/
  MIN_FOV_ANGLE : Int
  /-- `MAX_FOV_ANGLE`, the value of `DEG2ANGLE(120.0f)`. -/
  MAX_FOV_ANGLE : Int
  /-- `SORT_DEPTH`, the number of buckets of the depth sort. -/
  SORT_DEPTH : Int
  /-- Tangent of the fixed-point library. -/
  fix16_tan : Int → Int
  /-- Product of the fixed-point library. -/
  fix16_mul : Int → Int → Int
  /-- Quotient of the fixed-point library. -/
  fix16_div : Int → Int → Int

/-- The render part of the global state (`__state.render`). `cmdts` is the pool cursor,
counted in records from the pool base. -/
structure render_t where
  view_distance : Int
  near : Int
  far : Int
  sort_scale : Int
  mesh : mesh_t
  z_values_pool : Nat → Int
  screen_points_pool : Nat → int16_vec2_t
  cmdts_pool : Nat → vdp1_cmdt_t
  cmdts : Nat
  cmdt_count : Nat
  sort_cmdt : cmdt_ptr
  sort_link : Nat
  render_transform : render_transform_t

/-- Everything the pipeline reads or writes: the render state, the display command
table, the singles of the depth sort (in insertion order) and the collaborator calls. -/
structure State where
  render : render_t
  cmd_table : Nat → vdp1_cmdt_t
  sort : List (Nat × Int)
  trace : List Event

/-! ## Screen bounds and clip flags -/

/-- `SCREEN_CLIP_LEFT`: `(-SCREEN_WIDTH / 2)`, C division. -/
def SCREEN_CLIP_LEFT (env : Env) : Int := Int.tdiv (-env.SCREEN_WIDTH) 2

/-- `SCREEN_CLIP_RIGHT`: `(SCREEN_WIDTH / 2)`. -/
def SCREEN_CLIP_RIGHT (env : Env) : Int := Int.tdiv env.SCREEN_WIDTH 2

/-- `SCREEN_CLIP_TOP`: `(-SCREEN_HEIGHT / 2)`. -/
def SCREEN_CLIP_TOP (env : Env) : Int := Int.tdiv (-env.SCREEN_HEIGHT) 2

/-- `SCREEN_CLIP_BOTTOM`: `(SCREEN_HEIGHT / 2)`. -/
def SCREEN_CLIP_BOTTOM (env : Env) : Int := Int.tdiv env.SCREEN_HEIGHT 2

/-- `CLIP_FLAGS_NONE`. -/
def CLIP_FLAGS_NONE : Nat := 0

/-- Modelled from the spec: `CLIP_FLAGS_LR` of `internal.h`, the left and the right bit of
the per-vertex mask ("left-or-right violation"). -/
def CLIP_FLAGS_LR (env : Env) : Nat := (1 <<< env.CLIP_BIT_LEFT) ||| (1 <<< env.CLIP_BIT_RIGHT)

/-- Modelled from the spec: `CLIP_FLAGS_TB` of `internal.h`, the top and the bottom bit of
the per-vertex mask ("top-or-bottom violation"). -/
def CLIP_FLAGS_TB (env : Env) : Nat := (1 <<< env.CLIP_BIT_TOP) ||| (1 <<< env.CLIP_BIT_BOTTOM)

/-- The C value of a comparison: `1` when it holds, `0` otherwise. -/
def c_bool (b : Bool) : Nat := if b then 1 else 0

/-- `_clip_flags_lrtb_calculate`: the clip mask of one screen point. -/
def _clip_flags_lrtb_calculate (env : Env) (screen_point : int16_vec2_t) : Nat :=
  let clip_flag := c_bool (decide (screen_point.x < SCREEN_CLIP_LEFT env)) <<< env.CLIP_BIT_LEFT
  let clip_flag := clip_flag |||
    (c_bool (decide (screen_point.x > SCREEN_CLIP_RIGHT env)) <<< env.CLIP_BIT_RIGHT)
  let clip_flag := clip_flag |||
    (c_bool (decide (screen_point.y < SCREEN_CLIP_TOP env)) <<< env.CLIP_BIT_TOP)
  let clip_flag := clip_flag |||
    (c_bool (decide (screen_point.y > SCREEN_CLIP_BOTTOM env)) <<< env.CLIP_BIT_BOTTOM)
  clip_flag

/-- `_clip_flags_calculate`: the four masks, their AND and their OR. -/
def _clip_flags_calculate (env : Env) (rt : render_transform_t) : render_transform_t :=
  let clip_flags : Quad Nat :=
    ⟨_clip_flags_lrtb_calculate env rt.screen_points.e0,
     _clip_flags_lrtb_calculate env rt.screen_points.e1,
     _clip_flags_lrtb_calculate env rt.screen_points.e2,
     _clip_flags_lrtb_calculate env rt.screen_points.e3⟩
  { rt with
    clip_flags := clip_flags
    and_flags := clip_flags.e0 &&& clip_flags.e1 &&& clip_flags.e2 &&& clip_flags.e3
    or_flags := clip_flags.e0 ||| clip_flags.e1 ||| clip_flags.e2 ||| clip_flags.e3 }

/-! ## Backface test and depth metric -/

/-- `_backface_cull_test`: sign of the cross product of `(p2 - p0)` and `(p1 - p0)`,
computed in `int32_t`. -/
def _backface_cull_test (rt : render_transform_t) : Bool :=
  let ax := int32 (rt.screen_points.e2.x - rt.screen_points.e0.x)
  let ay := int32 (rt.screen_points.e2.y - rt.screen_points.e0.y)
  let bx := int32 (rt.screen_points.e1.x - rt.screen_points.e0.x)
  let b_y := int32 (rt.screen_points.e1.y - rt.screen_points.e0.y)
  let z := int32 (int32 (ax * b_y) - int32 (ay * bx))
  decide (z < 0)

/-- `_depth_min_calculate`. -/
def _depth_min_calculate (z_values : Quad Int) : Int :=
  fix16_min (fix16_min z_values.e0 z_values.e1) (fix16_min z_values.e2 z_values.e3)

/-- `_depth_max_calculate`. -/
def _depth_max_calculate (z_values : Quad Int) : Int :=
  fix16_max (fix16_max z_values.e0 z_values.e1) (fix16_max z_values.e2 z_values.e3)

/-- `_depth_center_calculate`: `(z_values[0] + z_values[2]) >> 1` on `fix16_t`. -/
def _depth_center_calculate (z_values : Quad Int) : Int :=
  int32 (z_values.e0 + z_values.e2) >>> (1 : Nat)

/-- `_depth_calculate`: the depth metric selected by the sort policy of the control
word. -/
def _depth_calculate (env : Env) (rt : render_transform_t) : Int :=
  match env.sort_type rt.rw_attribute.control with
  | sort_type_t.SORT_TYPE_MIN => _depth_min_calculate rt.z_values
  | sort_type_t.SORT_TYPE_MAX => _depth_max_calculate rt.z_values
  | _ => _depth_center_calculate rt.z_values

/-! ## Polygon orientation -/

/-- `_indices_swap`: exchange `indices.p[i]` and `indices.p[j]`. -/
def _indices_swap (rt : render_transform_t) (i j : Nat) : render_transform_t :=
  let tmp := rt.indices.get i
  let rt := { rt with indices := rt.indices.set i (rt.indices.get j) }
  { rt with indices := rt.indices.set j tmp }

/-- `_screen_points_swap`: exchange `screen_points[i]` and `screen_points[j]`. -/
def _screen_points_swap (rt : render_transform_t) (i j : Nat) : render_transform_t :=
  let tmp := rt.screen_points.get i
  let rt := { rt with screen_points := rt.screen_points.set i (rt.screen_points.get j) }
  { rt with screen_points := rt.screen_points.set j tmp }

/-- `_polygon_orient`: bring an on-screen corner to slot 0 by swapping and toggling the
flip bits of the control word. -/
def _polygon_orient (env : Env) (rt : render_transform_t) : render_transform_t :=
  let rt :=
    if rt.clip_flags.get 0 &&& CLIP_FLAGS_LR env ≠ CLIP_FLAGS_NONE then
      let rt := _indices_swap rt 0 1
      let rt := _indices_swap rt 3 2
      let rt := _screen_points_swap rt 0 1
      let rt := _screen_points_swap rt 2 3
      { rt with rw_attribute :=
          { rt.rw_attribute with control := rt.rw_attribute.control ^^^ env.VDP1_CMDT_CHAR_FLIP_H } }
    else rt
  if rt.clip_flags.get 0 &&& CLIP_FLAGS_TB env ≠ CLIP_FLAGS_NONE then
    let rt := _indices_swap rt 0 3
    let rt := _indices_swap rt 1 2
    let rt := _screen_points_swap rt 0 3
    let rt := _screen_points_swap rt 1 2
    { rt with rw_attribute :=
        { rt.rw_attribute with control := rt.rw_attribute.control ^^^ env.VDP1_CMDT_CHAR_FLIP_V } }
  else rt

/-! ## Command pool -/

/-- Replace the working state. -/
def State.with_rt (s : State) (rt : render_transform_t) : State :=
  { s with render := { s.render with render_transform := rt } }

/-- `_cmdts_alloc`: hand out the record under the cursor and advance the cursor. -/
def _cmdts_alloc (s : State) : Nat × State :=
  let cmdt := s.render.cmdts
  (cmdt, { s with render := { s.render with cmdts := s.render.cmdts + 1 } })

/-- `_cmdts_reset`: cursor back to the pool base, visible count to zero. -/
def _cmdts_reset (s : State) : State :=
  { s with render := { s.render with cmdts := 0, cmdt_count := 0 } }

/-- `_cmdt_link_calculate`: `cmdt - cmdts_pool`, the slot of a pool record. -/
def _cmdt_link_calculate (cmdt : Nat) : Nat := cmdt

/-- The one-bit field write `draw_mode.pre_clipping_disable = true` on the raw word. -/
def pre_clipping_disable_set (env : Env) (draw_mode : Nat) : Nat :=
  draw_mode ||| (1 <<< env.PRE_CLIPPING_DISABLE_BIT)

/-- `_cmdt_process`: fill the record `cmdt` from the working state. -/
def _cmdt_process (env : Env) (rt : render_transform_t) (cmdt : vdp1_cmdt_t) : vdp1_cmdt_t :=
  let cmdt := { cmdt with
    cmd_ctrl := env.VDP1_CMDT_LINK_TYPE_JUMP_ASSIGN ||| (rt.rw_attribute.control &&& 0x3F)
    cmd_pmod := rt.rw_attribute.draw_mode }
  let cmdt :=
    if env.use_texture rt.rw_attribute.control then
      let texture := env.tlist_get rt.ro_attribute.texture_slot
      { cmdt with cmd_srca := texture.vram_index, cmd_size := texture.size }
    else cmdt
  { cmdt with
    cmd_colr := rt.ro_attribute.palette
    cmd_vertices :=
      ⟨rt.screen_points.get 0, rt.screen_points.get 1,
       rt.screen_points.get 2, rt.screen_points.get 3⟩
    cmd_grda := rt.rw_attribute.shading_slot }

/-- Pointwise array write `a[i] = v`. -/
def arr_set {α : Type} (a : Nat → α) (i : Nat) (v : α) : Nat → α :=
  fun j => if j = i then v else a j

/-! ## Collaborators -/

/-- Modelled from the spec: depth sort `__sort_start`, "reset once per frame": every
single is forgotten. -/
def __sort_start (s : State) : State :=
  { s with sort := [], trace := s.trace ++ [Event.sort_start] }

/-- Modelled from the spec: depth sort `__sort_insert`, "insertion is append-only": the
single `(link, z)` is kept after the ones inserted before. -/
def __sort_insert (s : State) (link : Nat) (z : Int) : State :=
  { s with sort := s.sort ++ [(link, z)], trace := s.trace ++ [Event.sort_insert link z] }

/-- Modelled from the spec: lighting `__light_transform`, invoked "once per mesh after
Vertex Transform"; only the call is recorded. -/
def __light_transform (s : State) : State :=
  { s with trace := s.trace ++ [Event.light_transform] }

/-- Modelled from the spec: lighting `__light_polygon_process`, invoked "once per visible
polygon after orientation"; its internals are not specified, it is taken to leave the
shading slot of the polygon in `rw_attribute`, the one field `render.c` reads and never
writes. -/
def __light_polygon_process (env : Env) (s : State) : State :=
  let rt := s.render.render_transform
  let slot := env.light_shading_slot s.trace rt
  let s := s.with_rt { rt with rw_attribute := { rt.rw_attribute with shading_slot := slot } }
  { s with trace := s.trace ++ [Event.light_polygon_process] }

/-- Modelled from the spec: lighting `__light_gst_put`, invoked "once per frame after
Emission"; only the call is recorded. -/
def __light_gst_put (s : State) : State :=
  { s with trace := s.trace ++ [Event.light_gst_put] }

/-- Display `vdp1_sync_cmdt_put(cmdts, count, index)`; `base` is the pool slot the
pointer `cmdts` designates. -/
def vdp1_sync_cmdt_put (s : State) (base count index : Nat) : State :=
  { s with trace := s.trace ++ [Event.vdp1_sync_cmdt_put base count index] }

/-- Read the record behind a pointer. -/
def cmdt_read (s : State) (p : cmdt_ptr) : vdp1_cmdt_t :=
  match p with
  | cmdt_ptr.table index => s.cmd_table index
  | cmdt_ptr.pool slot => s.render.cmdts_pool slot

/-- Write the record behind a pointer. -/
def cmdt_write (s : State) (p : cmdt_ptr) (v : vdp1_cmdt_t) : State :=
  match p with
  | cmdt_ptr.table index => { s with cmd_table := arr_set s.cmd_table index v }
  | cmdt_ptr.pool slot =>
    { s with render := { s.render with cmdts_pool := arr_set s.render.cmdts_pool slot v } }

/-- Display `vdp1_cmdt_link_type_set(cmdt, link_type)`: rewrites the control word. -/
def vdp1_cmdt_link_type_set (env : Env) (s : State) (p : cmdt_ptr) (link_type : Nat) : State :=
  let c := cmdt_read s p
  cmdt_write s p { c with cmd_ctrl := env.vdp1_cmdt_link_type_set c.cmd_ctrl link_type }

/-- Modelled from the spec: display `vdp1_cmdt_link_set(cmdt, link)`, "set its link field
to point at the next visited record". -/
def vdp1_cmdt_link_set (s : State) (p : cmdt_ptr) (link : Nat) : State :=
  let c := cmdt_read s p
  cmdt_write s p { c with cmd_link := link }

/-! ## Vertex transform -/

/-- Body of the loop of `_transform` for point `i`. -/
def _transform_point (env : Env) (s : State) (i : Nat) : State :=
  let render_transform := s.render.render_transform
  let m0 := render_transform.view_matrix.row 0
  let m1 := render_transform.view_matrix.row 1
  let m2 := render_transform.view_matrix.row 2
  let points := s.render.mesh.points
  let z := int32 (env.fix16_vec3_dot m2 (points i) + render_transform.view_matrix.frow 2 3)
  let clamped_z := fix16_max z s.render.near
  let s := { s with trace :=
    s.trace ++ [Event.cpu_divu_fix16_set s.render.view_distance clamped_z] }
  let x := int32 (env.fix16_vec3_dot m0 (points i) + render_transform.view_matrix.frow 0 3)
  let y := int32 (env.fix16_vec3_dot m1 (points i) + render_transform.view_matrix.frow 1 3)
  let depth_value := env.cpu_divu_quotient s.render.view_distance clamped_z
  let screen_point : int16_vec2_t :=
    ⟨int16 (env.fix16_int32_mul depth_value x), int16 (env.fix16_int32_mul depth_value y)⟩
  { s with render := { s.render with
      screen_points_pool := arr_set s.render.screen_points_pool i screen_point
      z_values_pool := arr_set s.render.z_values_pool i z } }

/-- `_transform`: combined matrix, then every mesh point in order. -/
def _transform (env : Env) (s : State) : State :=
  let rt := s.render.render_transform
  let s := s.with_rt
    { rt with view_matrix := env.fix16_mat43_mul env.camera_view_invert env.matrix_top }
  (List.range s.render.mesh.points_count).foldl (_transform_point env) s

/-! ## Per-mesh pass -/

/-- Body of the polygon loop of `render_mesh_transform` for polygon `i`; each `continue`
returns the state reached so far. -/
def render_mesh_transform_polygon (env : Env) (s : State) (i : Nat) : State :=
  let z_values := s.render.z_values_pool
  let screen_points := s.render.screen_points_pool
  let polygons := s.render.mesh.polygons
  let rt := s.render.render_transform
  let rt := { rt with screen_points :=
    ⟨screen_points (polygons i).e0, screen_points (polygons i).e1,
     screen_points (polygons i).e2, screen_points (polygons i).e3⟩ }
  let rt := { rt with ro_attribute := s.render.mesh.attributes i }
  let rt := { rt with rw_attribute := { rt.rw_attribute with control := rt.ro_attribute.control } }
  if env.plane_type rt.rw_attribute.control ≠ env.PLANE_TYPE_DOUBLE ∧ _backface_cull_test rt = true
  then s.with_rt rt
  else
    let rt := { rt with rw_attribute :=
      { rt.rw_attribute with draw_mode := rt.ro_attribute.draw_mode } }
    let rt := { rt with z_values :=
      ⟨z_values (polygons i).e0, z_values (polygons i).e1,
       z_values (polygons i).e2, z_values (polygons i).e3⟩ }
    let depth_z := _depth_calculate env rt
    if depth_z < s.render.near then s.with_rt rt
    else
      let rt := _clip_flags_calculate env rt
      if rt.and_flags ≠ CLIP_FLAGS_NONE then s.with_rt rt
      else
        let rt := { rt with indices := polygons i }
        let rt :=
          if rt.or_flags = CLIP_FLAGS_NONE then
            { rt with rw_attribute := { rt.rw_attribute with
                draw_mode := pre_clipping_disable_set env rt.rw_attribute.draw_mode } }
          else _polygon_orient env rt
        let s := s.with_rt rt
        let s := __light_polygon_process env s
        let (cmdt, s) := _cmdts_alloc s
        let cmdt_link := _cmdt_link_calculate cmdt
        let s := cmdt_write s (cmdt_ptr.pool cmdt)
          (_cmdt_process env s.render.render_transform (cmdt_read s (cmdt_ptr.pool cmdt)))
        let scaled_z := int32 (env.fix16_int32_mul depth_z s.render.sort_scale)
        let s := __sort_insert s cmdt_link scaled_z
        { s with render := { s.render with cmdt_count := s.render.cmdt_count + 1 } }

/-- `render_mesh_transform`: transform the points of `mesh`, then process its polygons in
order. -/
def render_mesh_transform (env : Env) (s : State) (mesh : mesh_t) : State :=
  let s := { s with render := { s.render with mesh := mesh } }
  let s := _transform env s
  let s := __light_transform s
  (List.range s.render.mesh.polygons_count).foldl (render_mesh_transform_polygon env) s

/-- `render_start`: reset the pool and the depth sort. -/
def render_start (s : State) : State :=
  __sort_start (_cmdts_reset s)

/-! ## Display-list emission -/

/-- `_render_single`: link the previous record to the visited one, which becomes the
previous record. -/
def _render_single (s : State) (link : Nat) : State :=
  let s := vdp1_cmdt_link_set s s.render.sort_cmdt (link + s.render.sort_link)
  { s with render := { s.render with sort_cmdt := cmdt_ptr.pool link } }

/-- Modelled from the spec: depth sort `__sort_iterate(visitor)`; the visitor is called on
each single in the order the depth sort delivers them, which is a field of `Env`. -/
def __sort_iterate (env : Env) (s : State) (visitor : State → Nat → State) : State :=
  let singles := env.sort_iterate s.sort
  let s := { s with trace := s.trace ++ [Event.sort_iterate] }
  singles.foldl visitor s

/-- `render`: chain the visible records in depth-sort order and submit them. -/
def render (env : Env) (s : State) (subr_index cmdt_index : Nat) : State :=
  let subr_cmdt := cmdt_ptr.table subr_index
  if s.render.cmdt_count = 0 then
    vdp1_cmdt_link_type_set env s subr_cmdt env.VDP1_CMDT_LINK_TYPE_JUMP_NEXT
  else
    let s := { s with render := { s.render with sort_cmdt := subr_cmdt, sort_link := cmdt_index } }
    let s := vdp1_cmdt_link_type_set env s subr_cmdt env.VDP1_CMDT_LINK_TYPE_JUMP_CALL
    let s := __sort_iterate env s _render_single
    let end_cmdt := s.render.sort_cmdt
    let s := vdp1_cmdt_link_type_set env s end_cmdt env.VDP1_CMDT_LINK_TYPE_JUMP_RETURN
    let s := vdp1_sync_cmdt_put s 0 s.render.cmdt_count s.render.sort_link
    __light_gst_put s

/-! ## Observables of one polygon -/

/-- The projected screen points of the four vertices of polygon `i`, in mesh order. -/
def polygon_screen_points (s : State) (i : Nat) : Quad int16_vec2_t :=
  ⟨s.render.screen_points_pool (s.render.mesh.polygons i).e0,
   s.render.screen_points_pool (s.render.mesh.polygons i).e1,
   s.render.screen_points_pool (s.render.mesh.polygons i).e2,
   s.render.screen_points_pool (s.render.mesh.polygons i).e3⟩

/-- The unclamped depths of the four vertices of polygon `i`, in mesh order. -/
def polygon_z_values (s : State) (i : Nat) : Quad Int :=
  ⟨s.render.z_values_pool (s.render.mesh.polygons i).e0,
   s.render.z_values_pool (s.render.mesh.polygons i).e1,
   s.render.z_values_pool (s.render.mesh.polygons i).e2,
   s.render.z_values_pool (s.render.mesh.polygons i).e3⟩

/-- The working state once the loop body has gathered polygon `i` (screen points, source
attribute, control word, draw mode and depths), before any test. -/
def polygon_gather (s : State) (i : Nat) : render_transform_t :=
  { s.render.render_transform with
    screen_points := polygon_screen_points s i
    z_values := polygon_z_values s i
    ro_attribute := s.render.mesh.attributes i
    rw_attribute :=
      { s.render.render_transform.rw_attribute with
        control := (s.render.mesh.attributes i).control
        draw_mode := (s.render.mesh.attributes i).draw_mode } }

/-- The four per-vertex clip masks of polygon `i`. -/
def polygon_clip_flags (env : Env) (s : State) (i : Nat) : Quad Nat :=
  (_clip_flags_calculate env (polygon_gather s i)).clip_flags

/-- Bitwise AND of the four clip masks of polygon `i`. -/
def polygon_and_flags (env : Env) (s : State) (i : Nat) : Nat :=
  (_clip_flags_calculate env (polygon_gather s i)).and_flags

/-- Bitwise OR of the four clip masks of polygon `i`. -/
def polygon_or_flags (env : Env) (s : State) (i : Nat) : Nat :=
  (_clip_flags_calculate env (polygon_gather s i)).or_flags

/-- The depth metric of polygon `i`. -/
def polygon_depth (env : Env) (s : State) (i : Nat) : Int :=
  _depth_calculate env (polygon_gather s i)

/-- Polygon `i` is rejected by the backface test: it is not double-sided and the test
answers true. -/
def polygon_backface_culled (env : Env) (s : State) (i : Nat) : Prop :=
  env.plane_type (s.render.mesh.attributes i).control ≠ env.PLANE_TYPE_DOUBLE ∧
    _backface_cull_test (polygon_gather s i) = true

instance (env : Env) (s : State) (i : Nat) : Decidable (polygon_backface_culled env s i) := by
  unfold polygon_backface_culled; exact inferInstance

/-- Nothing was emitted between `s` and `t`: cursor, visible count, pool records, depth
sort, command table and collaborator calls are the same. -/
def not_emitted (s t : State) : Prop :=
  t.render.cmdts = s.render.cmdts ∧ t.render.cmdt_count = s.render.cmdt_count ∧
    t.render.cmdts_pool = s.render.cmdts_pool ∧ t.sort = s.sort ∧
    t.cmd_table = s.cmd_table ∧ t.trace = s.trace

/-- The cross product of `(p2 - p0)` and `(p1 - p0)` over the integers. -/
def cross_product (p : Quad int16_vec2_t) : Int :=
  (p.e2.x - p.e0.x) * (p.e1.y - p.e0.y) - (p.e2.y - p.e0.y) * (p.e1.x - p.e0.x)

/-! ## A concrete configuration -/

/-- A configuration with a 352x224 screen, clip bits 0 to 3, the flip and jump bits of
the display command word, angles in 1/65536 of a turn, 512 depth buckets and a tangent
that is linear in the angle and exact at 45 degrees. -/
def env0 : Env where
  SCREEN_WIDTH := 352
  SCREEN_HEIGHT := 224
  CLIP_BIT_LEFT := 0
  CLIP_BIT_RIGHT := 1
  CLIP_BIT_TOP := 2
  CLIP_BIT_BOTTOM := 3
  VDP1_CMDT_CHAR_FLIP_H := 0x0010
  VDP1_CMDT_CHAR_FLIP_V := 0x0020
  VDP1_CMDT_LINK_TYPE_JUMP_NEXT := 0x0000
  VDP1_CMDT_LINK_TYPE_JUMP_ASSIGN := 0x1000
  VDP1_CMDT_LINK_TYPE_JUMP_CALL := 0x2000
  VDP1_CMDT_LINK_TYPE_JUMP_RETURN := 0x3000
  PLANE_TYPE_DOUBLE := 1
  plane_type := fun raw => (raw >>> 9) % 2
  sort_type := fun raw =>
    match (raw >>> 6) % 4 with
    | 0 => sort_type_t.other 0
    | 1 => sort_type_t.SORT_TYPE_MIN
    | 2 => sort_type_t.SORT_TYPE_MAX
    | _ => sort_type_t.SORT_TYPE_CENTER
  use_texture := fun raw => decide ((raw >>> 8) % 2 = 1)
  PRE_CLIPPING_DISABLE_BIT := 11
  tlist_get := fun slot => ⟨8 * slot, 0x0108⟩
  fix16_vec3_dot := fun a b => int32 ((a.x * b.x + a.y * b.y + a.z * b.z) / 65536)
  cpu_divu_quotient := fun n d => if d = 0 then 0 else int32 (Int.tdiv (n * 65536) d)
  fix16_int32_mul := fun a b => int32 ((a * b) / 4294967296)
  fix16_mat43_mul := fun _ b => b
  matrix_top := ⟨fun r c => if r = c then 65536 else 0⟩
  camera_view_invert := ⟨fun r c => if r = c then 65536 else 0⟩
  vdp1_cmdt_link_type_set := fun ctrl t => (ctrl &&& 0x8FFF) ||| t
  light_shading_slot := fun _ rt => rt.ro_attribute.shading_slot
  sort_iterate := fun singles => singles.map Prod.fst
  MIN_FOV_ANGLE := 3640
  MAX_FOV_ANGLE := 21845
  SORT_DEPTH := 512
  fix16_tan := fun a => int32 (a * 8)
  fix16_mul := fun a b => int32 ((a * b) / 65536)
  fix16_div := fun a b => if b = 0 then 0 else int32 (Int.tdiv (a * 65536) b)

/-- A command record with every field zero. -/
def cmdt0 : vdp1_cmdt_t := ⟨0, 0, 0, 0, 0, 0, ⟨⟨0, 0⟩, ⟨0, 0⟩, ⟨0, 0⟩, ⟨0, 0⟩⟩, 0⟩

/-- A source attribute with the given control word and draw mode. -/
def attr0 (control draw_mode : Nat) : attribute_t := ⟨control, draw_mode, 0, 0, 0⟩

/-- The state `__render_init` leaves for the configuration `env0`: empty mesh, zeroed
pools, view distance 175.5 (a field of view of 90 degrees on the 352 wide screen), near
level 7 (near plane 175.5 / 256), far plane 1024 and the sort scale 511 / 1024 of 512
buckets. -/
def state0 : State where
  render :=
    { view_distance := 11501568
      near := 44928
      far := 67108864
      sort_scale := 32704
      mesh := ⟨fun _ => ⟨0, 0, 0⟩, 0, fun _ => ⟨0, 0, 0, 0⟩, fun _ => attr0 0 0, 0⟩
      z_values_pool := fun _ => 0
      screen_points_pool := fun _ => ⟨0, 0⟩
      cmdts_pool := fun _ => cmdt0
      cmdts := 0
      cmdt_count := 0
      sort_cmdt := cmdt_ptr.table 0
      sort_link := 0
      render_transform :=
        { view_matrix := ⟨fun _ _ => 0⟩
          screen_points := ⟨⟨0, 0⟩, ⟨0, 0⟩, ⟨0, 0⟩, ⟨0, 0⟩⟩
          z_values := ⟨0, 0, 0, 0⟩
          clip_flags := ⟨0, 0, 0, 0⟩
          and_flags := 0
          or_flags := 0
          indices := ⟨0, 0, 0, 0⟩
          ro_attribute := attr0 0 0
          rw_attribute := ⟨0, 0, 0⟩ } }
  cmd_table := fun _ => cmdt0
  sort := []
  trace := []

/-- The state `state0` holding one quad (vertices 0, 1, 2, 3) with the given projected
points, one depth for all four vertices and the given control word. -/
def quad_state (p0 p1 p2 p3 : int16_vec2_t) (z : Int) (control : Nat) : State :=
  { state0 with render := { state0.render with
      mesh := ⟨fun _ => ⟨0, 0, 0⟩, 4, fun _ => ⟨0, 1, 2, 3⟩, fun _ => attr0 control 0, 1⟩
      z_values_pool := fun _ => z
      screen_points_pool := fun k =>
        match k with
        | 0 => p0
        | 1 => p1
        | 2 => p2
        | _ => p3 } }

/-- All four vertices of polygon `i` violate one common screen bound. -/
def polygon_common_bound (env : Env) (s : State) (i : Nat) : Prop :=
  let p := polygon_screen_points s i
  (p.e0.x < SCREEN_CLIP_LEFT env ∧ p.e1.x < SCREEN_CLIP_LEFT env ∧
      p.e2.x < SCREEN_CLIP_LEFT env ∧ p.e3.x < SCREEN_CLIP_LEFT env) ∨
    (p.e0.x > SCREEN_CLIP_RIGHT env ∧ p.e1.x > SCREEN_CLIP_RIGHT env ∧
      p.e2.x > SCREEN_CLIP_RIGHT env ∧ p.e3.x > SCREEN_CLIP_RIGHT env) ∨
    (p.e0.y < SCREEN_CLIP_TOP env ∧ p.e1.y < SCREEN_CLIP_TOP env ∧
      p.e2.y < SCREEN_CLIP_TOP env ∧ p.e3.y < SCREEN_CLIP_TOP env) ∨
    (p.e0.y > SCREEN_CLIP_BOTTOM env ∧ p.e1.y > SCREEN_CLIP_BOTTOM env ∧
      p.e2.y > SCREEN_CLIP_BOTTOM env ∧ p.e3.y > SCREEN_CLIP_BOTTOM env)

/-- A mesh of one single-sided quad, 255.8 wide and 156.25 high, at depth `near` in front
of the camera. -/
def big_quad_mesh : mesh_t where
  points := fun k =>
    match k with
    | 0 => ⟨-8382054, 5120000, 44928⟩
    | 1 => ⟨-8382054, -5120000, 44928⟩
    | 2 => ⟨8382054, 5120000, 44928⟩
    | _ => ⟨8382054, -5120000, 44928⟩
  points_count := 4
  polygons := fun _ => ⟨0, 1, 2, 3⟩
  attributes := fun _ => attr0 0 0
  polygons_count := 1

/-- The working state of `state0` holding the four corner depths and the control word. -/
def depth_rt (z0 z1 z2 z3 : Int) (control : Nat) : render_transform_t :=
  { state0.render.render_transform with
    z_values := ⟨z0, z1, z2, z3⟩
    rw_attribute := ⟨control, 0, 0⟩ }

/-- The working state of `state0` for a quad with indices 10 to 13 whose vertex 0 has the
clip mask `flags0` and lies 200 pixels left of the screen centre. -/
def orient_rt (flags0 : Nat) : render_transform_t :=
  { state0.render.render_transform with
    screen_points := ⟨⟨-200, 0⟩, ⟨-100, 0⟩, ⟨-100, 50⟩, ⟨-200, 50⟩⟩
    clip_flags := ⟨flags0, 0, 0, 0⟩
    or_flags := flags0
    indices := ⟨10, 11, 12, 13⟩ }

/-- The working state of a polygon `i` that passed the three tests, after the orientation
step (or the pre-clipping switch) of the loop body. -/
def polygon_oriented (env : Env) (s : State) (i : Nat) : render_transform_t :=
  let rt := { _clip_flags_calculate env (polygon_gather s i) with
    indices := s.render.mesh.polygons i }
  if rt.or_flags = CLIP_FLAGS_NONE then
    { rt with rw_attribute := { rt.rw_attribute with
        draw_mode := pre_clipping_disable_set env rt.rw_attribute.draw_mode } }
  else _polygon_orient env rt

/-- The working state of a polygon `i` that passed the three tests when its record is
written: oriented, with the shading slot left by the lighting hook. -/
def polygon_lit (env : Env) (s : State) (i : Nat) : render_transform_t :=
  { polygon_oriented env s i with
    rw_attribute := { (polygon_oriented env s i).rw_attribute with
      shading_slot := env.light_shading_slot s.trace (polygon_oriented env s i) } }

/-- Polygon `i` passes the backface, near-plane and trivial-reject tests. -/
def polygon_visible (env : Env) (s : State) (i : Nat) : Prop :=
  ¬ polygon_backface_culled env s i ∧ ¬ polygon_depth env s i < s.render.near ∧
    polygon_and_flags env s i = 0

instance (env : Env) (s : State) (i : Nat) : Decidable (polygon_visible env s i) := by
  unfold polygon_visible; exact inferInstance

/-! ## Closed form of the vertex transform -/

/-- The combined matrix `_transform` stores in the working state. -/
def transform_view_matrix (env : Env) : fix16_mat43_t :=
  env.fix16_mat43_mul env.camera_view_invert env.matrix_top

/-- View-space coordinate `r` (0 for x, 1 for y, 2 for z) of mesh point `i`: row `r` of the
combined matrix applied to the point, plus the translation entry of that row. -/
def transform_coord (env : Env) (s : State) (r i : Nat) : Int :=
  int32 (env.fix16_vec3_dot ((transform_view_matrix env).row r) (s.render.mesh.points i) +
    (transform_view_matrix env).frow r 3)

/-- The divisor handed to the division unit for mesh point `i`. -/
def transform_divisor (env : Env) (s : State) (i : Nat) : Int :=
  fix16_max (transform_coord env s 2 i) s.render.near

/-- The screen point `_transform` computes for mesh point `i`. -/
def transform_screen_point (env : Env) (s : State) (i : Nat) : int16_vec2_t :=
  ⟨int16 (env.fix16_int32_mul
      (env.cpu_divu_quotient s.render.view_distance (transform_divisor env s i))
      (transform_coord env s 0 i)),
    int16 (env.fix16_int32_mul
      (env.cpu_divu_quotient s.render.view_distance (transform_divisor env s i))
      (transform_coord env s 1 i))⟩

/-- The state after the first `n` points of `_transform`, in closed form. -/
def transform_result (env : Env) (s : State) (n : Nat) : State :=
  { s with
    render := { s.render with
      render_transform := { s.render.render_transform with
        view_matrix := transform_view_matrix env }
      screen_points_pool := fun j =>
        if j < n then transform_screen_point env s j else s.render.screen_points_pool j
      z_values_pool := fun j =>
        if j < n then transform_coord env s 2 j else s.render.z_values_pool j }
    trace := s.trace ++ (List.range n).map
      (fun j => Event.cpu_divu_fix16_set s.render.view_distance (transform_divisor env s j)) }

/-- The link that walking `L` from the record `first` leaves in the record behind `p`
(before `sort_link` is added), or `none` when that record's link is not written: the
record before each visited single receives that single's link, later writes win. -/
def chain_target (first : cmdt_ptr) (L : List Nat) (p : cmdt_ptr) : Option Nat :=
  match L with
  | [] => none
  | l :: rest =>
    match chain_target (cmdt_ptr.pool l) rest p with
    | some x => some x
    | none => if p = first then some l else none

/-- The pool slots the display visits when it follows `n` links from the record behind
`p`, the pool having been copied to the command table at index `cmdt_index`. -/
def chain_walk (t : State) (cmdt_index : Nat) (p : cmdt_ptr) (n : Nat) : List Nat :=
  match n with
  | 0 => []
  | n + 1 =>
    let slot := (cmdt_read t p).cmd_link - cmdt_index
    slot :: chain_walk t cmdt_index (cmdt_ptr.pool slot) n

/-- Modelled from the spec: the order of the depth-sort iteration, "walk the depth-sort
buckets in ascending scaled-depth order, within each bucket in insertion order", for
`bucket_count` buckets keyed by scaled depth. -/
def sort_iterate_ascending (bucket_count : Nat) (singles : List (Nat × Int)) :
    List (Nat × Int) :=
  (List.range bucket_count).flatMap
    (fun b => singles.filter (fun single => decide (single.2 = (b : Int))))

/-- The state `state0` with three visible records: slot 0 inserted at scaled depth 5, slot
1 at depth 2 and slot 2 at depth 5. -/
def three_singles_state : State :=
  { state0 with
    render := { state0.render with cmdts := 3, cmdt_count := 3 }
    sort := [(0, 5), (1, 2), (2, 5)] }

/-- The configuration `env0` with a depth sort of 8 buckets iterated in ascending order. -/
def env_ascending : Env :=
  { env0 with sort_iterate := fun singles => (sort_iterate_ascending 8 singles).map Prod.fst }

/-- What a state keeps across the chaining of records: everything but the records and
`sort_cmdt`. -/
def chain_frame (u t : State) : Prop :=
  t.trace = u.trace ∧ t.sort = u.sort ∧ t.render.sort_link = u.render.sort_link ∧
    t.render.cmdt_count = u.render.cmdt_count ∧ t.render.cmdts = u.render.cmdts

/-- The record `sort_cmdt` points at after walking `L` from the record `first`. -/
def chain_end (first : cmdt_ptr) (L : List Nat) : cmdt_ptr :=
  match L with
  | [] => first
  | l :: rest => chain_end (cmdt_ptr.pool l) rest

/-! ## The polygon loop as a whole -/

/-- The states `s` and `t` hold the same scene: mesh, projected points, depths, near plane
and sort scale. -/
def same_scene (s t : State) : Prop :=
  t.render.mesh = s.render.mesh ∧ t.render.z_values_pool = s.render.z_values_pool ∧
    t.render.screen_points_pool = s.render.screen_points_pool ∧
    t.render.near = s.render.near ∧ t.render.sort_scale = s.render.sort_scale

/-- The number of polygons among the first `n` that pass the three tests. -/
def visible_count (env : Env) (s : State) (n : Nat) : Nat :=
  ((List.range n).filter (fun i => decide (polygon_visible env s i))).length

/-- The state of `render_mesh_transform` when its polygon loop starts. -/
def pass_start (env : Env) (s : State) (mesh : mesh_t) : State :=
  __light_transform (_transform env { s with render := { s.render with mesh := mesh } })

/-- The record count and the cursor of `t` are within a pool of `capacity` records. -/
def pool_within (capacity : Nat) (t : State) : Prop :=
  t.render.cmdt_count ≤ capacity ∧ t.render.cmdts ≤ capacity

instance (capacity : Nat) (t : State) : Decidable (pool_within capacity t) := by
  unfold pool_within; exact inferInstance

/-- A mesh of three double-sided quads on the same four points, 2.0 in front of the
camera and inside the screen. -/
def three_quads_mesh : mesh_t where
  points := fun k =>
    match k with
    | 0 => ⟨-65536, 65536, 131072⟩
    | 1 => ⟨-65536, -65536, 131072⟩
    | 2 => ⟨65536, 65536, 131072⟩
    | _ => ⟨65536, -65536, 131072⟩
  points_count := 4
  polygons := fun _ => ⟨0, 1, 2, 3⟩
  attributes := fun _ => attr0 512 0
  polygons_count := 3

/-! ## Projection configuration -/

/-- Modelled from the spec: the `clamp(x, low, high)` macro, "clamp into a fixed valid
range": `low` at or below `low`, `high` at or above `high`, `x` in between. -/
def clamp {α : Type} [LE α] [DecidableRel (fun a b : α => a ≤ b)] (x low high : α) : α :=
  if x ≤ low then low else if high ≤ x then high else x

/-- Modelled from the spec: `fix16_clamp` of the fixed-point library, "clamp into
`[near, 2048]`". -/
def fix16_clamp (value value_low value_high : Int) : Int :=
  fix16_min (fix16_max value value_low) value_high

/-- Modelled from the spec: the `FIX16` macro on an integer constant, the constant in 16.16
fixed point. -/
def FIX16 (x : Int) : Int := x * 65536

/-- Modelled from the spec: `FIX16(0.5f * (SCREEN_WIDTH - 1))`, "0.5 (screenWidth - 1)" in
16.16 fixed point. -/
def screen_scale (env : Env) : Int := (env.SCREEN_WIDTH - 1) * 32768

/-- `NEAR_LEVEL_MIN`. -/
def NEAR_LEVEL_MIN : Nat := 1

/-- `NEAR_LEVEL_MAX`. -/
def NEAR_LEVEL_MAX : Nat := 8

/-- `render_perspective_set`: view distance from the clamped field of view. -/
def render_perspective_set (env : Env) (s : State) (fov_angle : Int) : State :=
  let fov_angle := clamp fov_angle env.MIN_FOV_ANGLE env.MAX_FOV_ANGLE
  let hfov_angle := fov_angle >>> (1 : Nat)
  let tan := env.fix16_tan hfov_angle
  { s with render := { s.render with view_distance := env.fix16_mul (screen_scale env) tan } }

/-- `render_near_level_set`: the view distance halved `clamp(level + 1, 1, 8)` times, the
sum being a `uint32_t`. -/
def render_near_level_set (s : State) (level : Nat) : State :=
  let s := { s with render := { s.render with near := s.render.view_distance } }
  let clamped_level := clamp ((level + 1) % 4294967296) NEAR_LEVEL_MIN NEAR_LEVEL_MAX
  (List.range clamped_level).foldl
    (fun (s : State) (_ : Nat) =>
      { s with render := { s.render with near := s.render.near >>> (1 : Nat) } }) s

/-- `render_far_set`: far plane clamped into `[near, 2048]`, then the sort scale. -/
def render_far_set (env : Env) (s : State) (far : Int) : State :=
  let s := { s with render := { s.render with
    far := fix16_clamp far s.render.near (FIX16 2048) } }
  { s with render := { s.render with
    sort_scale := env.fix16_div (FIX16 (env.SORT_DEPTH - 1)) s.render.far } }

/-! ## Pool prefix and bucket index -/

/-- The pool-prefix invariant: the cursor is as far from the pool base as the visible
count says, and the links of the depth sort are the slots `0 .. cmdt_count - 1` in
insertion order. -/
def pool_prefix_inv (t : State) : Prop :=
  t.render.cmdts = t.render.cmdt_count ∧
    t.sort.map Prod.fst = List.range t.render.cmdt_count

/-- Modelled from the spec: `fix16_div` of the fixed-point library, "fixed-point division":
the quotient of the operands in 16.16 fixed point, truncated and kept within the range of
`fix16_t` by saturation. -/
def fix16_div (a b : Int) : Int :=
  max (-2147483648) (min 2147483647 (Int.tdiv (a * 65536) b))

/-- Modelled from the spec: `fix16_int32_mul` of the fixed-point library,
"truncate(depthMetric · sortScale)": the integer part of the product of two 16.16
fixed-point numbers. -/
def fix16_int32_mul (a b : Int) : Int := Int.tdiv (a * b) 4294967296

/-- The configuration `env0` with the fixed-point quotient and integer product of the
spec. -/
def env_fix16 : Env :=
  { env0 with fix16_div := fix16_div, fix16_int32_mul := fix16_int32_mul }

/-- An on-screen double-sided quad at depth `z`, after `render_far_set(FIX16(1024))`. -/
def far_quad_state (z : Int) : State :=
  render_far_set env_fix16 (quad_state ⟨-10, 5⟩ ⟨-10, -5⟩ ⟨10, -5⟩ ⟨10, 5⟩ z 512) (FIX16 1024)

/-! # Theorems -/


theorem with_rt_not_emitted (s : State) (rt : render_transform_t) :
    not_emitted s (s.with_rt rt) :=
  ⟨rfl, rfl, rfl, rfl, rfl, rfl⟩

theorem c_bool_shift_testBit (b : Bool) (k : Nat) : (c_bool b <<< k).testBit k = b := by
  cases b <;> simp [c_bool, Nat.testBit_shiftLeft]

theorem lrtb_testBit_left (env : Env) (p : int16_vec2_t) (h : p.x < SCREEN_CLIP_LEFT env) :
    (_clip_flags_lrtb_calculate env p).testBit env.CLIP_BIT_LEFT = true := by
  simp only [_clip_flags_lrtb_calculate, Nat.testBit_or, c_bool_shift_testBit, h, gt_iff_lt,
    decide_True, Bool.or_true, Bool.true_or]

theorem lrtb_testBit_right (env : Env) (p : int16_vec2_t) (h : p.x > SCREEN_CLIP_RIGHT env) :
    (_clip_flags_lrtb_calculate env p).testBit env.CLIP_BIT_RIGHT = true := by
  simp only [_clip_flags_lrtb_calculate, Nat.testBit_or, c_bool_shift_testBit, h, gt_iff_lt,
    decide_True, Bool.or_true, Bool.true_or]

theorem lrtb_testBit_top (env : Env) (p : int16_vec2_t) (h : p.y < SCREEN_CLIP_TOP env) :
    (_clip_flags_lrtb_calculate env p).testBit env.CLIP_BIT_TOP = true := by
  simp only [_clip_flags_lrtb_calculate, Nat.testBit_or, c_bool_shift_testBit, h, gt_iff_lt,
    decide_True, Bool.or_true, Bool.true_or]

theorem lrtb_testBit_bottom (env : Env) (p : int16_vec2_t) (h : p.y > SCREEN_CLIP_BOTTOM env) :
    (_clip_flags_lrtb_calculate env p).testBit env.CLIP_BIT_BOTTOM = true := by
  simp only [_clip_flags_lrtb_calculate, Nat.testBit_or, c_bool_shift_testBit, h, gt_iff_lt,
    decide_True, Bool.or_true, Bool.true_or]

theorem and4_ne_zero_of_testBit (a b c d k : Nat) (ha : a.testBit k = true)
    (hb : b.testBit k = true) (hc : c.testBit k = true) (hd : d.testBit k = true) :
    a &&& b &&& c &&& d ≠ 0 := by
  intro h
  have : (a &&& b &&& c &&& d).testBit k = true := by
    simp [Nat.testBit_and, ha, hb, hc, hd]
  rw [h] at this
  simp at this

theorem and_flags_ne_zero_of_common_bound (env : Env) (s : State) (i : Nat)
    (h : polygon_common_bound env s i) : polygon_and_flags env s i ≠ 0 := by
  unfold polygon_common_bound at h
  show _clip_flags_lrtb_calculate env (polygon_screen_points s i).e0 &&&
      _clip_flags_lrtb_calculate env (polygon_screen_points s i).e1 &&&
      _clip_flags_lrtb_calculate env (polygon_screen_points s i).e2 &&&
      _clip_flags_lrtb_calculate env (polygon_screen_points s i).e3 ≠ 0
  rcases h with ⟨h0, h1, h2, h3⟩ | ⟨h0, h1, h2, h3⟩ | ⟨h0, h1, h2, h3⟩ | ⟨h0, h1, h2, h3⟩
  · exact and4_ne_zero_of_testBit _ _ _ _ _ (lrtb_testBit_left env _ h0)
      (lrtb_testBit_left env _ h1) (lrtb_testBit_left env _ h2) (lrtb_testBit_left env _ h3)
  · exact and4_ne_zero_of_testBit _ _ _ _ _ (lrtb_testBit_right env _ h0)
      (lrtb_testBit_right env _ h1) (lrtb_testBit_right env _ h2) (lrtb_testBit_right env _ h3)
  · exact and4_ne_zero_of_testBit _ _ _ _ _ (lrtb_testBit_top env _ h0)
      (lrtb_testBit_top env _ h1) (lrtb_testBit_top env _ h2) (lrtb_testBit_top env _ h3)
  · exact and4_ne_zero_of_testBit _ _ _ _ _ (lrtb_testBit_bottom env _ h0)
      (lrtb_testBit_bottom env _ h1) (lrtb_testBit_bottom env _ h2)
      (lrtb_testBit_bottom env _ h3)

/-- The loop body, by cases on the three tests. -/
theorem polygon_step_cases (env : Env) (s : State) (i : Nat) :
    (polygon_backface_culled env s i ∧
        not_emitted s (render_mesh_transform_polygon env s i)) ∨
      (¬ polygon_backface_culled env s i ∧ polygon_depth env s i < s.render.near ∧
        not_emitted s (render_mesh_transform_polygon env s i)) ∨
      (¬ polygon_backface_culled env s i ∧ ¬ polygon_depth env s i < s.render.near ∧
        polygon_and_flags env s i ≠ 0 ∧
        not_emitted s (render_mesh_transform_polygon env s i)) ∨
      (¬ polygon_backface_culled env s i ∧ ¬ polygon_depth env s i < s.render.near ∧
        polygon_and_flags env s i = 0 ∧
        (render_mesh_transform_polygon env s i).render.cmdts = s.render.cmdts + 1 ∧
        (render_mesh_transform_polygon env s i).render.cmdt_count = s.render.cmdt_count + 1 ∧
        (render_mesh_transform_polygon env s i).sort =
          s.sort ++ [(s.render.cmdts,
            int32 (env.fix16_int32_mul (polygon_depth env s i) s.render.sort_scale))] ∧
        (render_mesh_transform_polygon env s i).render.render_transform = polygon_lit env s i ∧
        (render_mesh_transform_polygon env s i).render.cmdts_pool =
          arr_set s.render.cmdts_pool s.render.cmdts
            (_cmdt_process env (polygon_lit env s i) (s.render.cmdts_pool s.render.cmdts)) ∧
        (render_mesh_transform_polygon env s i).cmd_table = s.cmd_table ∧
        (render_mesh_transform_polygon env s i).trace =
          s.trace ++ [Event.light_polygon_process, Event.sort_insert s.render.cmdts
            (int32 (env.fix16_int32_mul (polygon_depth env s i) s.render.sort_scale))]) := by
  by_cases hb : polygon_backface_culled env s i
  · left
    refine ⟨hb, ?_⟩
    have hb2 := hb
    unfold polygon_backface_culled at hb2
    unfold render_mesh_transform_polygon
    simp only []
    rw [if_pos (by exact hb2)]
    exact with_rt_not_emitted _ _
  · right
    have hb2 := hb
    unfold polygon_backface_culled at hb2
    by_cases hn : polygon_depth env s i < s.render.near
    · left
      refine ⟨hb, hn, ?_⟩
      unfold render_mesh_transform_polygon
      simp only []
      rw [if_neg (by exact hb2), if_pos (by exact hn)]
      exact with_rt_not_emitted _ _
    · right
      by_cases ha : polygon_and_flags env s i ≠ 0
      · left
        refine ⟨hb, hn, ha, ?_⟩
        unfold render_mesh_transform_polygon
        simp only []
        rw [if_neg (by exact hb2), if_neg (by exact hn), if_pos (by exact ha)]
        exact with_rt_not_emitted _ _
      · right
        refine ⟨hb, hn, not_not.mp ha, ?_⟩
        unfold render_mesh_transform_polygon
        simp only []
        rw [if_neg (by exact hb2), if_neg (by exact hn), if_neg (by exact ha)]
        refine ⟨rfl, rfl, rfl, ?_, ?_, rfl, ?_⟩
        · show _ = polygon_lit env s i
          unfold polygon_lit polygon_oriented
          by_cases hor : (_clip_flags_calculate env (polygon_gather s i)).or_flags =
              CLIP_FLAGS_NONE
          · rw [if_pos (by exact hor)]
            simp only []
            rw [if_pos (by exact hor)]
            rfl
          · rw [if_neg (by exact hor)]
            simp only []
            rw [if_neg (by exact hor)]
            rfl
        · show _ = arr_set s.render.cmdts_pool s.render.cmdts
            (_cmdt_process env (polygon_lit env s i) (s.render.cmdts_pool s.render.cmdts))
          unfold polygon_lit polygon_oriented
          by_cases hor : (_clip_flags_calculate env (polygon_gather s i)).or_flags =
              CLIP_FLAGS_NONE
          · rw [if_pos (by exact hor)]
            simp only []
            rw [if_pos (by exact hor)]
            rfl
          · rw [if_neg (by exact hor)]
            simp only []
            rw [if_neg (by exact hor)]
            rfl
        · simp [__sort_insert, cmdt_write, _cmdts_alloc, __light_polygon_process, State.with_rt,
            _cmdt_link_calculate]
          rfl

theorem int32_of_range (x : Int) (h0 : -2147483648 ≤ x) (h1 : x < 2147483648) : int32 x = x := by
  unfold int32
  rw [Int.emod_eq_of_lt (by omega) (by omega)]
  omega

/-- Whenever no `int32_t` operation of the backface test overflows, the test is the sign
of the cross product over the integers. -/
theorem backface_cull_test_of_no_overflow (rt : render_transform_t)
    (hax : |rt.screen_points.e2.x - rt.screen_points.e0.x| ≤ 32767)
    (hay : |rt.screen_points.e2.y - rt.screen_points.e0.y| ≤ 32767)
    (hbx : |rt.screen_points.e1.x - rt.screen_points.e0.x| ≤ 32767)
    (hby : |rt.screen_points.e1.y - rt.screen_points.e0.y| ≤ 32767) :
    _backface_cull_test rt = decide (cross_product rt.screen_points < 0) := by
  have h1 : |(rt.screen_points.e2.x - rt.screen_points.e0.x) *
      (rt.screen_points.e1.y - rt.screen_points.e0.y)| ≤ 32767 * 32767 := by
    rw [abs_mul]; exact mul_le_mul hax hby (abs_nonneg _) (by norm_num)
  have h2 : |(rt.screen_points.e2.y - rt.screen_points.e0.y) *
      (rt.screen_points.e1.x - rt.screen_points.e0.x)| ≤ 32767 * 32767 := by
    rw [abs_mul]; exact mul_le_mul hay hbx (abs_nonneg _) (by norm_num)
  rw [abs_le] at hax hay hbx hby h1 h2
  have e1 := int32_of_range (rt.screen_points.e2.x - rt.screen_points.e0.x) (by omega) (by omega)
  have e2 := int32_of_range (rt.screen_points.e2.y - rt.screen_points.e0.y) (by omega) (by omega)
  have e3 := int32_of_range (rt.screen_points.e1.x - rt.screen_points.e0.x) (by omega) (by omega)
  have e4 := int32_of_range (rt.screen_points.e1.y - rt.screen_points.e0.y) (by omega) (by omega)
  have e5 := int32_of_range ((rt.screen_points.e2.x - rt.screen_points.e0.x) *
      (rt.screen_points.e1.y - rt.screen_points.e0.y)) (by omega) (by omega)
  have e6 := int32_of_range ((rt.screen_points.e2.y - rt.screen_points.e0.y) *
      (rt.screen_points.e1.x - rt.screen_points.e0.x)) (by omega) (by omega)
  have e7 := int32_of_range ((rt.screen_points.e2.x - rt.screen_points.e0.x) *
      (rt.screen_points.e1.y - rt.screen_points.e0.y) -
      (rt.screen_points.e2.y - rt.screen_points.e0.y) *
      (rt.screen_points.e1.x - rt.screen_points.e0.x)) (by omega) (by omega)
  unfold _backface_cull_test cross_product
  simp only []
  rw [e1, e2, e3, e4, e5, e6, e7]

/-! ## Visibility culling -/

/-- C1: a polygon whose four clip masks have a nonzero bitwise AND, in particular one
whose four projected vertices all violate the same screen bound (left, right, top or
bottom), is not emitted by the loop body of `render_mesh_transform`: the pool cursor, the
pool records, the depth sort and the visible count are left as they were. -/
theorem trivial_reject_not_emitted (env : Env) (s : State) (i : Nat)
    (h : polygon_and_flags env s i ≠ 0 ∨ polygon_common_bound env s i) :
    not_emitted s (render_mesh_transform_polygon env s i) := by
  have hand : polygon_and_flags env s i ≠ 0 := by
    rcases h with h | h
    · exact h
    · exact and_flags_ne_zero_of_common_bound env s i h
  rcases polygon_step_cases env s i with ⟨_, h⟩ | ⟨_, _, h⟩ | ⟨_, _, _, h⟩ | ⟨_, _, h0, _⟩
  · exact h
  · exact h
  · exact h
  · exact absurd h0 hand

/-- Witness of C1: a double-sided quad at depth 1.0 lying entirely left of the 352 wide
screen has AND mask 1 (the left bit) and is not emitted. -/
theorem trivial_reject_not_emitted_witness :
    polygon_and_flags env0
        (quad_state ⟨-200, 50⟩ ⟨-200, -50⟩ ⟨-300, 50⟩ ⟨-300, -50⟩ 65536 512) 0 = 1 ∧
      ¬ polygon_backface_culled env0
        (quad_state ⟨-200, 50⟩ ⟨-200, -50⟩ ⟨-300, 50⟩ ⟨-300, -50⟩ 65536 512) 0 ∧
      not_emitted (quad_state ⟨-200, 50⟩ ⟨-200, -50⟩ ⟨-300, 50⟩ ⟨-300, -50⟩ 65536 512)
        (render_mesh_transform_polygon env0
          (quad_state ⟨-200, 50⟩ ⟨-200, -50⟩ ⟨-300, 50⟩ ⟨-300, -50⟩ 65536 512) 0) :=
  ⟨by decide, by decide,
    trivial_reject_not_emitted env0 _ 0 (Or.inl (by decide))⟩

/-- C2 (failing input): the single-sided quad with projected points (-32768, 20000),
(-32768, -20000), (32767, 20000), (32767, -20000) has cross product -2621400000 over the
integers, which is negative, but the `int32_t` product wraps to a positive value: the
backface test answers false and the loop body emits the polygon (cursor and visible count
go from 0 to 1, one single is inserted). The same happens for the mesh `big_quad_mesh` run
through the whole pass. -/
theorem backface_overflow_emitted :
    cross_product (polygon_screen_points
        (quad_state ⟨-32768, 20000⟩ ⟨-32768, -20000⟩ ⟨32767, 20000⟩ ⟨32767, -20000⟩ 65536 0) 0)
        = -2621400000 ∧
      env0.plane_type ((quad_state ⟨-32768, 20000⟩ ⟨-32768, -20000⟩ ⟨32767, 20000⟩
        ⟨32767, -20000⟩ 65536 0).render.mesh.attributes 0).control ≠ env0.PLANE_TYPE_DOUBLE ∧
      _backface_cull_test (polygon_gather
        (quad_state ⟨-32768, 20000⟩ ⟨-32768, -20000⟩ ⟨32767, 20000⟩ ⟨32767, -20000⟩ 65536 0) 0)
        = false ∧
      (render_mesh_transform_polygon env0
        (quad_state ⟨-32768, 20000⟩ ⟨-32768, -20000⟩ ⟨32767, 20000⟩ ⟨32767, -20000⟩ 65536 0)
        0).render.cmdt_count = 1 ∧
      (render_mesh_transform_polygon env0
        (quad_state ⟨-32768, 20000⟩ ⟨-32768, -20000⟩ ⟨32767, 20000⟩ ⟨32767, -20000⟩ 65536 0)
        0).sort = [(0, 0)] ∧
      cross_product (polygon_screen_points
        (render_mesh_transform env0 (render_start state0) big_quad_mesh) 0) = -2619400000 ∧
      (render_mesh_transform env0 (render_start state0) big_quad_mesh).render.cmdt_count = 1 := by
  refine ⟨by decide, by decide, by decide, by decide, by decide, by decide, by decide⟩

/-- C3: a polygon whose depth metric is strictly below `near` is not emitted, whatever its
clip flags and sidedness; a polygon whose depth metric equals `near` is not rejected by the
near-plane test: if it also passes the backface test and the trivial reject, it is emitted
(one record allocated, one single inserted, visible count plus one). -/
theorem near_plane_cull (env : Env) (s : State) (i : Nat) :
    (polygon_depth env s i < s.render.near →
        not_emitted s (render_mesh_transform_polygon env s i)) ∧
      (polygon_depth env s i = s.render.near → ¬ polygon_backface_culled env s i →
        polygon_and_flags env s i = 0 →
        (render_mesh_transform_polygon env s i).render.cmdts = s.render.cmdts + 1 ∧
        (render_mesh_transform_polygon env s i).render.cmdt_count = s.render.cmdt_count + 1 ∧
        (render_mesh_transform_polygon env s i).sort =
          s.sort ++ [(s.render.cmdts,
            int32 (env.fix16_int32_mul (polygon_depth env s i) s.render.sort_scale))]) := by
  constructor
  · intro hlt
    rcases polygon_step_cases env s i with ⟨_, h⟩ | ⟨_, _, h⟩ | ⟨_, h0, _⟩ | ⟨_, h0, _⟩
    · exact h
    · exact h
    · exact absurd hlt h0
    · exact absurd hlt h0
  · intro heq hb ha
    rcases polygon_step_cases env s i with ⟨h0, _⟩ | ⟨_, h0, _⟩ | ⟨_, _, h0, _⟩ | ⟨_, _, _, h⟩
    · exact absurd h0 hb
    · rw [heq] at h0; exact absurd h0 (lt_irrefl _)
    · exact absurd ha h0
    · exact ⟨h.1, h.2.1, h.2.2.1⟩

/-- Witness of C3: with `near = 44928`, a double-sided on-screen quad at depth 44927 is not
emitted, and the same quad at depth 44928 is emitted. -/
theorem near_plane_cull_witness :
    (polygon_depth env0 (quad_state ⟨-10, 5⟩ ⟨-10, -5⟩ ⟨10, 5⟩ ⟨10, -5⟩ 44927 512) 0 <
        (quad_state ⟨-10, 5⟩ ⟨-10, -5⟩ ⟨10, 5⟩ ⟨10, -5⟩ 44927 512).render.near ∧
      not_emitted (quad_state ⟨-10, 5⟩ ⟨-10, -5⟩ ⟨10, 5⟩ ⟨10, -5⟩ 44927 512)
        (render_mesh_transform_polygon env0
          (quad_state ⟨-10, 5⟩ ⟨-10, -5⟩ ⟨10, 5⟩ ⟨10, -5⟩ 44927 512) 0)) ∧
      (polygon_depth env0 (quad_state ⟨-10, 5⟩ ⟨-10, -5⟩ ⟨10, 5⟩ ⟨10, -5⟩ 44928 512) 0 =
        (quad_state ⟨-10, 5⟩ ⟨-10, -5⟩ ⟨10, 5⟩ ⟨10, -5⟩ 44928 512).render.near ∧
      (render_mesh_transform_polygon env0
        (quad_state ⟨-10, 5⟩ ⟨-10, -5⟩ ⟨10, 5⟩ ⟨10, -5⟩ 44928 512) 0).render.cmdt_count =
        (quad_state ⟨-10, 5⟩ ⟨-10, -5⟩ ⟨10, 5⟩ ⟨10, -5⟩ 44928 512).render.cmdt_count + 1) :=
  ⟨⟨by decide, (near_plane_cull env0 _ 0).1 (by decide)⟩,
    ⟨by decide, ((near_plane_cull env0 _ 0).2 (by decide) (by decide) (by decide)).2.1⟩⟩

/-! ## Depth metric -/

/-- C4: `_depth_calculate` returns `(z0 + z2) >> 1` (in `fix16_t` arithmetic, corners 0 and
2 only) for the CENTER policy, which is the floor of the half sum whenever the sum fits in
32 bits; the minimum of the four corner depths for MIN; the maximum for MAX. -/
theorem depth_calculate_policies (env : Env) (rt : render_transform_t) :
    (env.sort_type rt.rw_attribute.control = sort_type_t.SORT_TYPE_CENTER →
        _depth_calculate env rt = int32 (rt.z_values.e0 + rt.z_values.e2) / 2 ∧
        (-2147483648 ≤ rt.z_values.e0 + rt.z_values.e2 →
          rt.z_values.e0 + rt.z_values.e2 < 2147483648 →
          _depth_calculate env rt = (rt.z_values.e0 + rt.z_values.e2) / 2)) ∧
      (env.sort_type rt.rw_attribute.control = sort_type_t.SORT_TYPE_MIN →
        (_depth_calculate env rt ≤ rt.z_values.e0 ∧ _depth_calculate env rt ≤ rt.z_values.e1 ∧
          _depth_calculate env rt ≤ rt.z_values.e2 ∧ _depth_calculate env rt ≤ rt.z_values.e3) ∧
        (_depth_calculate env rt = rt.z_values.e0 ∨ _depth_calculate env rt = rt.z_values.e1 ∨
          _depth_calculate env rt = rt.z_values.e2 ∨ _depth_calculate env rt = rt.z_values.e3)) ∧
      (env.sort_type rt.rw_attribute.control = sort_type_t.SORT_TYPE_MAX →
        (rt.z_values.e0 ≤ _depth_calculate env rt ∧ rt.z_values.e1 ≤ _depth_calculate env rt ∧
          rt.z_values.e2 ≤ _depth_calculate env rt ∧ rt.z_values.e3 ≤ _depth_calculate env rt) ∧
        (_depth_calculate env rt = rt.z_values.e0 ∨ _depth_calculate env rt = rt.z_values.e1 ∨
          _depth_calculate env rt = rt.z_values.e2 ∨ _depth_calculate env rt = rt.z_values.e3)) := by
  refine ⟨fun h => ?_, fun h => ?_, fun h => ?_⟩
  · have hc : _depth_calculate env rt = int32 (rt.z_values.e0 + rt.z_values.e2) / 2 := by
      unfold _depth_calculate
      rw [h]
      show int32 (rt.z_values.e0 + rt.z_values.e2) >>> (1 : Nat) = _
      rw [Int.shiftRight_eq_div_pow]
      norm_num
    refine ⟨hc, fun h0 h1 => ?_⟩
    rw [hc, int32_of_range _ h0 h1]
  · have hc : _depth_calculate env rt =
        min (min rt.z_values.e0 rt.z_values.e1) (min rt.z_values.e2 rt.z_values.e3) := by
      unfold _depth_calculate
      rw [h]
      rfl
    rw [hc]
    refine ⟨⟨?_, ?_, ?_, ?_⟩, ?_⟩ <;> omega
  · have hc : _depth_calculate env rt =
        max (max rt.z_values.e0 rt.z_values.e1) (max rt.z_values.e2 rt.z_values.e3) := by
      unfold _depth_calculate
      rw [h]
      rfl
    rw [hc]
    refine ⟨⟨?_, ?_, ?_, ?_⟩, ?_⟩ <;> omega

/-- Witness of C4: for the corner depths 10, 20, 30, 40 the CENTER metric is 20, the MIN
metric 10 and the MAX metric 40. -/
theorem depth_calculate_policies_witness :
    _depth_calculate env0 (depth_rt 10 20 30 40 192) = 20 ∧
      _depth_calculate env0 (depth_rt 10 20 30 40 64) = 10 ∧
      _depth_calculate env0 (depth_rt 10 20 30 40 128) = 40 ∧
      _depth_calculate env0 (depth_rt 10 20 30 40 64) ≤ 20 ∧
      30 ≤ _depth_calculate env0 (depth_rt 10 20 30 40 128) :=
  ⟨((depth_calculate_policies env0 (depth_rt 10 20 30 40 192)).1 (by decide)).1.trans
      (by decide),
    by decide, by decide,
    ((depth_calculate_policies env0 (depth_rt 10 20 30 40 64)).2.1 (by decide)).1.2.1,
    ((depth_calculate_policies env0 (depth_rt 10 20 30 40 128)).2.2 (by decide)).1.2.2.1⟩

/-! ## Polygon orientation -/

theorem and_or_shift_ne_zero_iff (x a b : Nat) :
    x &&& ((1 <<< a) ||| (1 <<< b)) ≠ 0 ↔ x.testBit a = true ∨ x.testBit b = true := by
  rw [Nat.one_shiftLeft, Nat.one_shiftLeft]
  constructor
  · intro h
    obtain ⟨k, hk⟩ := Nat.ne_zero_implies_bit_true h
    rw [Nat.testBit_and, Nat.testBit_or, Nat.testBit_two_pow, Nat.testBit_two_pow] at hk
    simp only [Bool.and_eq_true, Bool.or_eq_true, decide_eq_true_eq] at hk
    rcases hk with ⟨hx, rfl | rfl⟩
    · exact Or.inl hx
    · exact Or.inr hx
  · intro h hz
    rcases h with h | h
    · have : (x &&& (2 ^ a ||| 2 ^ b)).testBit a = true := by
        simp [Nat.testBit_and, Nat.testBit_or, Nat.testBit_two_pow, h]
      rw [hz] at this
      simp at this
    · have : (x &&& (2 ^ a ||| 2 ^ b)).testBit b = true := by
        simp [Nat.testBit_and, Nat.testBit_or, Nat.testBit_two_pow, h]
      rw [hz] at this
      simp at this

/-- C5: `_polygon_orient` is determined by `clip_flags[0]`. With a left or right bit it
swaps indices and screen points at slots (0,1) and (3,2) and XORs the control word with the
horizontal-flip bit; then with a top or bottom bit it swaps slots (0,3) and (1,2) and XORs
the control word with the vertical-flip bit; with neither (in particular for a zero mask)
it changes nothing. Every other field of the working state (depths, clip flags, draw mode,
source attribute) is left as it was. -/
theorem polygon_orient_spec (env : Env) (rt : render_transform_t) :
    (rt.clip_flags.e0 &&& CLIP_FLAGS_LR env ≠ 0 ↔
        rt.clip_flags.e0.testBit env.CLIP_BIT_LEFT = true ∨
        rt.clip_flags.e0.testBit env.CLIP_BIT_RIGHT = true) ∧
      (rt.clip_flags.e0 &&& CLIP_FLAGS_TB env ≠ 0 ↔
        rt.clip_flags.e0.testBit env.CLIP_BIT_TOP = true ∨
        rt.clip_flags.e0.testBit env.CLIP_BIT_BOTTOM = true) ∧
      (rt.clip_flags.e0 = 0 → _polygon_orient env rt = rt) ∧
      (¬ rt.clip_flags.e0 &&& CLIP_FLAGS_LR env ≠ 0 → ¬ rt.clip_flags.e0 &&& CLIP_FLAGS_TB env ≠ 0 →
        _polygon_orient env rt = rt) ∧
      (rt.clip_flags.e0 &&& CLIP_FLAGS_LR env ≠ 0 → ¬ rt.clip_flags.e0 &&& CLIP_FLAGS_TB env ≠ 0 →
        _polygon_orient env rt =
          { rt with
            indices := ⟨rt.indices.e1, rt.indices.e0, rt.indices.e3, rt.indices.e2⟩
            screen_points := ⟨rt.screen_points.e1, rt.screen_points.e0,
              rt.screen_points.e3, rt.screen_points.e2⟩
            rw_attribute := { rt.rw_attribute with
              control := rt.rw_attribute.control ^^^ env.VDP1_CMDT_CHAR_FLIP_H } }) ∧
      (¬ rt.clip_flags.e0 &&& CLIP_FLAGS_LR env ≠ 0 → rt.clip_flags.e0 &&& CLIP_FLAGS_TB env ≠ 0 →
        _polygon_orient env rt =
          { rt with
            indices := ⟨rt.indices.e3, rt.indices.e2, rt.indices.e1, rt.indices.e0⟩
            screen_points := ⟨rt.screen_points.e3, rt.screen_points.e2,
              rt.screen_points.e1, rt.screen_points.e0⟩
            rw_attribute := { rt.rw_attribute with
              control := rt.rw_attribute.control ^^^ env.VDP1_CMDT_CHAR_FLIP_V } }) ∧
      (rt.clip_flags.e0 &&& CLIP_FLAGS_LR env ≠ 0 → rt.clip_flags.e0 &&& CLIP_FLAGS_TB env ≠ 0 →
        _polygon_orient env rt =
          { rt with
            indices := ⟨rt.indices.e2, rt.indices.e3, rt.indices.e0, rt.indices.e1⟩
            screen_points := ⟨rt.screen_points.e2, rt.screen_points.e3,
              rt.screen_points.e0, rt.screen_points.e1⟩
            rw_attribute := { rt.rw_attribute with
              control := rt.rw_attribute.control ^^^ env.VDP1_CMDT_CHAR_FLIP_H ^^^
                env.VDP1_CMDT_CHAR_FLIP_V } }) ∧
      ((_polygon_orient env rt).z_values = rt.z_values ∧
        (_polygon_orient env rt).clip_flags = rt.clip_flags ∧
        (_polygon_orient env rt).and_flags = rt.and_flags ∧
        (_polygon_orient env rt).or_flags = rt.or_flags ∧
        (_polygon_orient env rt).rw_attribute.draw_mode = rt.rw_attribute.draw_mode ∧
        (_polygon_orient env rt).rw_attribute.shading_slot = rt.rw_attribute.shading_slot ∧
        (_polygon_orient env rt).ro_attribute = rt.ro_attribute) := by
  have key : ∀ (lr tb : Prop) [Decidable lr] [Decidable tb],
      (rt.clip_flags.e0 &&& CLIP_FLAGS_LR env ≠ 0 ↔ lr) →
      (rt.clip_flags.e0 &&& CLIP_FLAGS_TB env ≠ 0 ↔ tb) →
      _polygon_orient env rt =
        (if tb then
          (fun r : render_transform_t => { r with
            indices := ⟨r.indices.e3, r.indices.e2, r.indices.e1, r.indices.e0⟩
            screen_points := ⟨r.screen_points.e3, r.screen_points.e2,
              r.screen_points.e1, r.screen_points.e0⟩
            rw_attribute := { r.rw_attribute with
              control := r.rw_attribute.control ^^^ env.VDP1_CMDT_CHAR_FLIP_V } })
        else id)
        ((if lr then
          (fun r : render_transform_t => { r with
            indices := ⟨r.indices.e1, r.indices.e0, r.indices.e3, r.indices.e2⟩
            screen_points := ⟨r.screen_points.e1, r.screen_points.e0,
              r.screen_points.e3, r.screen_points.e2⟩
            rw_attribute := { r.rw_attribute with
              control := r.rw_attribute.control ^^^ env.VDP1_CMDT_CHAR_FLIP_H } })
        else id) rt) := by
    intro lr tb _ _ hlr htb
    unfold _polygon_orient
    by_cases h1 : lr <;> by_cases h2 : tb <;>
      simp [h1, h2, hlr.symm, htb.symm, Quad.get, CLIP_FLAGS_NONE] at * <;>
      simp [hlr, htb, _indices_swap, _screen_points_swap, Quad.get, Quad.set]
  have k := key _ _ Iff.rfl Iff.rfl
  refine ⟨and_or_shift_ne_zero_iff _ _ _, and_or_shift_ne_zero_iff _ _ _, ?_, ?_, ?_, ?_, ?_, ?_⟩
  · intro h0
    have h1 : ¬ rt.clip_flags.e0 &&& CLIP_FLAGS_LR env ≠ 0 := by simp [h0]
    have h2 : ¬ rt.clip_flags.e0 &&& CLIP_FLAGS_TB env ≠ 0 := by simp [h0]
    rw [k, if_neg h1, if_neg h2]
    rfl
  · intro h1 h2
    rw [k, if_neg h1, if_neg h2]
    rfl
  · intro h1 h2
    rw [k, if_pos h1, if_neg h2]
    rfl
  · intro h1 h2
    rw [k, if_neg h1, if_pos h2]
    rfl
  · intro h1 h2
    rw [k, if_pos h1, if_pos h2]
  · rw [k]
    by_cases h1 : rt.clip_flags.e0 &&& CLIP_FLAGS_LR env ≠ 0 <;>
      by_cases h2 : rt.clip_flags.e0 &&& CLIP_FLAGS_TB env ≠ 0
    · rw [if_pos h1, if_pos h2]
      exact ⟨rfl, rfl, rfl, rfl, rfl, rfl, rfl⟩
    · rw [if_pos h1, if_neg h2]
      exact ⟨rfl, rfl, rfl, rfl, rfl, rfl, rfl⟩
    · rw [if_neg h1, if_pos h2]
      exact ⟨rfl, rfl, rfl, rfl, rfl, rfl, rfl⟩
    · rw [if_neg h1, if_neg h2]
      exact ⟨rfl, rfl, rfl, rfl, rfl, rfl, rfl⟩

/-- Witness of C5: with clip mask 1 (left) at slot 0 the pairs (0,1) and (3,2) are swapped
and the control word 0 becomes the horizontal-flip bit. -/
theorem polygon_orient_spec_witness :
    (orient_rt 1).clip_flags.e0 &&& CLIP_FLAGS_LR env0 ≠ 0 ∧
      ¬ (orient_rt 1).clip_flags.e0 &&& CLIP_FLAGS_TB env0 ≠ 0 ∧
      _polygon_orient env0 (orient_rt 1) =
        { orient_rt 1 with
          indices := ⟨(orient_rt 1).indices.e1, (orient_rt 1).indices.e0,
            (orient_rt 1).indices.e3, (orient_rt 1).indices.e2⟩
          screen_points := ⟨(orient_rt 1).screen_points.e1, (orient_rt 1).screen_points.e0,
            (orient_rt 1).screen_points.e3, (orient_rt 1).screen_points.e2⟩
          rw_attribute := { (orient_rt 1).rw_attribute with
            control := (orient_rt 1).rw_attribute.control ^^^ env0.VDP1_CMDT_CHAR_FLIP_H } } ∧
      (_polygon_orient env0 (orient_rt 1)).indices = ⟨11, 10, 13, 12⟩ ∧
      (_polygon_orient env0 (orient_rt 1)).rw_attribute.control = 16 :=
  ⟨by decide, by decide,
    (polygon_orient_spec env0 (orient_rt 1)).2.2.2.2.1 (by decide) (by decide),
    by decide, by decide⟩

/-! ## Command assembly -/

theorem and4_eq_zero_of_or4_eq_zero (a b c d : Nat) (h : a ||| b ||| c ||| d = 0) :
    a &&& b &&& c &&& d = 0 := by
  apply Nat.eq_of_testBit_eq
  intro k
  have hk : (a ||| b ||| c ||| d).testBit k = false := by rw [h]; simp
  simp only [Nat.testBit_or, Bool.or_eq_false_iff] at hk
  simp [Nat.testBit_and, hk.1.1.1]

theorem and_flags_eq_zero_of_or_flags (env : Env) (s : State) (i : Nat)
    (h : polygon_or_flags env s i = 0) : polygon_and_flags env s i = 0 :=
  and4_eq_zero_of_or4_eq_zero _ _ _ _ h

/-- C6: a polygon that passes the backface and near-plane tests and whose four clip masks
OR to zero is emitted with the pre-clipping-disable bit set in `cmd_pmod` (every other
draw-mode bit as in the source attribute), with `cmd_vertices[0..3]` the projected points
of `p0, p1, p2, p3` in mesh order, and with the control word of the source attribute: no
flip bit is toggled and the indices are not permuted. -/
theorem onscreen_polygon_record (env : Env) (s : State) (i : Nat)
    (hb : ¬ polygon_backface_culled env s i) (hn : ¬ polygon_depth env s i < s.render.near)
    (hor : polygon_or_flags env s i = 0) :
    ((render_mesh_transform_polygon env s i).render.cmdts_pool s.render.cmdts).cmd_pmod =
        (s.render.mesh.attributes i).draw_mode ||| (1 <<< env.PRE_CLIPPING_DISABLE_BIT) ∧
      (((render_mesh_transform_polygon env s i).render.cmdts_pool s.render.cmdts).cmd_pmod).testBit
        env.PRE_CLIPPING_DISABLE_BIT = true ∧
      (∀ k, k ≠ env.PRE_CLIPPING_DISABLE_BIT →
        (((render_mesh_transform_polygon env s i).render.cmdts_pool s.render.cmdts).cmd_pmod).testBit k
          = (s.render.mesh.attributes i).draw_mode.testBit k) ∧
      ((render_mesh_transform_polygon env s i).render.cmdts_pool s.render.cmdts).cmd_vertices =
        polygon_screen_points s i ∧
      ((render_mesh_transform_polygon env s i).render.cmdts_pool s.render.cmdts).cmd_ctrl =
        env.VDP1_CMDT_LINK_TYPE_JUMP_ASSIGN ||| ((s.render.mesh.attributes i).control &&& 0x3F) ∧
      (render_mesh_transform_polygon env s i).render.render_transform.rw_attribute.control =
        (s.render.mesh.attributes i).control ∧
      (render_mesh_transform_polygon env s i).render.render_transform.indices =
        s.render.mesh.polygons i ∧
      (render_mesh_transform_polygon env s i).render.cmdts = s.render.cmdts + 1 ∧
      (render_mesh_transform_polygon env s i).render.cmdt_count = s.render.cmdt_count + 1 := by
  have ha := and_flags_eq_zero_of_or_flags env s i hor
  have hO : polygon_oriented env s i =
      { _clip_flags_calculate env (polygon_gather s i) with
        indices := s.render.mesh.polygons i
        rw_attribute := { (polygon_gather s i).rw_attribute with
          draw_mode := pre_clipping_disable_set env (s.render.mesh.attributes i).draw_mode } } := by
    unfold polygon_oriented
    simp only []
    rw [if_pos (by exact hor)]
    rfl
  rcases polygon_step_cases env s i with ⟨h0, _⟩ | ⟨_, h0, _⟩ | ⟨_, _, h0, _⟩ |
    ⟨_, _, _, hc, hn, _, hrt, hpool, _, _⟩
  · exact absurd h0 hb
  · exact absurd h0 hn
  · exact absurd ha h0
  · have hrec : (render_mesh_transform_polygon env s i).render.cmdts_pool s.render.cmdts =
        _cmdt_process env (polygon_lit env s i) (s.render.cmdts_pool s.render.cmdts) := by
      rw [hpool]
      simp [arr_set]
    have hpm : ((render_mesh_transform_polygon env s i).render.cmdts_pool
        s.render.cmdts).cmd_pmod =
        (s.render.mesh.attributes i).draw_mode ||| (1 <<< env.PRE_CLIPPING_DISABLE_BIT) := by
      rw [hrec]
      unfold polygon_lit
      rw [hO]
      unfold _cmdt_process
      simp only []
      split <;> rfl
    refine ⟨hpm, ?_, ?_, ?_, ?_, ?_, ?_, hc, hn⟩
    · rw [hpm, Nat.testBit_or, Nat.one_shiftLeft, Nat.testBit_two_pow_self, Bool.or_true]
    · intro k hk
      rw [hpm, Nat.testBit_or, Nat.one_shiftLeft, Nat.testBit_two_pow_of_ne (Ne.symm hk),
        Bool.or_false]
    · rw [hrec]
      unfold polygon_lit
      rw [hO]
      unfold _cmdt_process
      simp only []
      rfl
    · rw [hrec]
      unfold polygon_lit
      rw [hO]
      unfold _cmdt_process
      simp only []
      split <;> rfl
    · rw [hrt]
      unfold polygon_lit
      rw [hO]
      rfl
    · rw [hrt]
      unfold polygon_lit
      rw [hO]

/-- Witness of C6: a double-sided quad inside the screen at depth 1.0 is written to slot 0
with `cmd_pmod = 0x0800`, its four points in mesh order and control word 0x1000. -/
theorem onscreen_polygon_record_witness :
    polygon_or_flags env0 (quad_state ⟨-10, 5⟩ ⟨-10, -5⟩ ⟨10, 5⟩ ⟨10, -5⟩ 65536 512) 0 = 0 ∧
      ((render_mesh_transform_polygon env0
        (quad_state ⟨-10, 5⟩ ⟨-10, -5⟩ ⟨10, 5⟩ ⟨10, -5⟩ 65536 512) 0).render.cmdts_pool
          (quad_state ⟨-10, 5⟩ ⟨-10, -5⟩ ⟨10, 5⟩ ⟨10, -5⟩ 65536 512).render.cmdts).cmd_pmod =
        ((quad_state ⟨-10, 5⟩ ⟨-10, -5⟩ ⟨10, 5⟩ ⟨10, -5⟩ 65536 512).render.mesh.attributes
          0).draw_mode ||| (1 <<< env0.PRE_CLIPPING_DISABLE_BIT) ∧
      (render_mesh_transform_polygon env0
        (quad_state ⟨-10, 5⟩ ⟨-10, -5⟩ ⟨10, 5⟩ ⟨10, -5⟩ 65536 512) 0).render.cmdts_pool 0 =
        { cmdt0 with
          cmd_ctrl := 0x1000
          cmd_pmod := 0x0800
          cmd_vertices := ⟨⟨-10, 5⟩, ⟨-10, -5⟩, ⟨10, 5⟩, ⟨10, -5⟩⟩ } :=
  ⟨by decide,
    (onscreen_polygon_record env0 _ 0 (by decide) (by decide) (by decide)).1,
    by decide⟩

/-! ## Vertex transform -/

theorem transform_fold (env : Env) (s : State) (n : Nat) :
    (List.range n).foldl (_transform_point env)
        (s.with_rt { s.render.render_transform with view_matrix := transform_view_matrix env })
      = transform_result env s n := by
  induction n with
  | zero =>
    simp only [List.range_zero, List.foldl_nil, transform_result, State.with_rt, List.map_nil,
      List.append_nil, Nat.not_lt_zero, if_false]
  | succ n ih =>
    rw [List.range_succ, List.foldl_append, ih]
    simp only [List.foldl_cons, List.foldl_nil, _transform_point, transform_result,
      List.map_append, List.map_cons, List.map_nil, List.append_assoc]
    have hpool : ∀ {α : Type} (f old : Nat → α),
        arr_set (fun j => if j < n then f j else old j) n (f n) =
          fun j => if j < n + 1 then f j else old j := by
      intro α f old
      funext j
      unfold arr_set
      by_cases h1 : j = n
      · subst h1
        rw [if_pos rfl, if_pos (Nat.lt_succ_self _)]
      · by_cases h2 : j < n
        · rw [if_neg h1]
          show (if j < n then f j else old j) = _
          rw [if_pos h2, if_pos (Nat.lt_succ_of_lt h2)]
        · have h3 : ¬ j < n + 1 := by omega
          rw [if_neg h1]
          show (if j < n then f j else old j) = _
          rw [if_neg h2, if_neg h3]
    have hsp := hpool (transform_screen_point env s) s.render.screen_points_pool
    have hz := hpool (fun j => transform_coord env s 2 j) s.render.z_values_pool
    have htr : (List.range (n + 1)).map
        (fun j => Event.cpu_divu_fix16_set s.render.view_distance (transform_divisor env s j)) =
        (List.range n).map
          (fun j => Event.cpu_divu_fix16_set s.render.view_distance (transform_divisor env s j))
          ++ [Event.cpu_divu_fix16_set s.render.view_distance (transform_divisor env s n)] := by
      rw [List.range_succ, List.map_append]
      rfl
    rw [htr, ← hsp, ← hz]
    rfl

theorem transform_eq (env : Env) (s : State) :
    _transform env s = transform_result env s s.render.mesh.points_count := by
  unfold _transform
  exact transform_fold env s _

/-- C9: with a visible count of zero, `render` only rewrites the control word of the
subroutine record to the jump-next link type: the depth sort is not iterated, no pool
record, `sort_cmdt` or `sort_link` is modified, and neither the display submission nor the
lighting table upload is called. -/
theorem render_empty (env : Env) (s : State) (subr_index cmdt_index : Nat)
    (h : s.render.cmdt_count = 0) :
    render env s subr_index cmdt_index =
        { s with
          cmd_table := arr_set s.cmd_table subr_index
            { (s.cmd_table subr_index) with
              cmd_ctrl := env.vdp1_cmdt_link_type_set (s.cmd_table subr_index).cmd_ctrl
                env.VDP1_CMDT_LINK_TYPE_JUMP_NEXT } } ∧
      (render env s subr_index cmdt_index).trace = s.trace ∧
      (render env s subr_index cmdt_index).render.cmdts_pool = s.render.cmdts_pool ∧
      (render env s subr_index cmdt_index).render.sort_cmdt = s.render.sort_cmdt ∧
      (render env s subr_index cmdt_index).render.sort_link = s.render.sort_link ∧
      (render env s subr_index cmdt_index).sort = s.sort ∧
      ((render env s subr_index cmdt_index).cmd_table subr_index).cmd_ctrl =
        env.vdp1_cmdt_link_type_set (s.cmd_table subr_index).cmd_ctrl
          env.VDP1_CMDT_LINK_TYPE_JUMP_NEXT := by
  have key : render env s subr_index cmdt_index =
      { s with
        cmd_table := arr_set s.cmd_table subr_index
          { (s.cmd_table subr_index) with
            cmd_ctrl := env.vdp1_cmdt_link_type_set (s.cmd_table subr_index).cmd_ctrl
              env.VDP1_CMDT_LINK_TYPE_JUMP_NEXT } } := by
    unfold render
    simp only []
    rw [if_pos h]
    rfl
  rw [key]
  refine ⟨rfl, rfl, rfl, rfl, rfl, rfl, ?_⟩
  simp [arr_set]

/-- Witness of C9: on the start-up state, whose visible count is zero, `render 3 7` leaves
the trace empty and sets the control word of command table record 3 to jump-next. -/
theorem render_empty_witness :
    state0.render.cmdt_count = 0 ∧ (render env0 state0 3 7).trace = state0.trace ∧
      (render env0 state0 3 7).trace = [] ∧
      ((render env0 state0 3 7).cmd_table 3).cmd_ctrl =
        env0.vdp1_cmdt_link_type_set (state0.cmd_table 3).cmd_ctrl
          env0.VDP1_CMDT_LINK_TYPE_JUMP_NEXT :=
  ⟨by decide, (render_empty env0 state0 3 7 (by decide)).2.1, by decide,
    (render_empty env0 state0 3 7 (by decide)).2.2.2.2.2.2⟩

theorem cmdt_read_write (s : State) (p q : cmdt_ptr) (v : vdp1_cmdt_t) :
    cmdt_read (cmdt_write s p v) q = if q = p then v else cmdt_read s q := by
  cases p <;> cases q <;> simp [cmdt_read, cmdt_write, arr_set]

theorem cmdt_write_frame (s : State) (p : cmdt_ptr) (v : vdp1_cmdt_t) :
    chain_frame s (cmdt_write s p v) ∧
      (cmdt_write s p v).render.sort_cmdt = s.render.sort_cmdt := by
  cases p <;> exact ⟨⟨rfl, rfl, rfl, rfl, rfl⟩, rfl⟩

theorem chain_frame_trans {u v w : State} (h1 : chain_frame u v) (h2 : chain_frame v w) :
    chain_frame u w :=
  ⟨h2.1.trans h1.1, h2.2.1.trans h1.2.1, h2.2.2.1.trans h1.2.2.1, h2.2.2.2.1.trans h1.2.2.2.1,
    h2.2.2.2.2.trans h1.2.2.2.2⟩

theorem render_single_step (u : State) (l : Nat) :
    chain_frame u (_render_single u l) ∧
      (_render_single u l).render.sort_cmdt = cmdt_ptr.pool l ∧
      ∀ p, cmdt_read (_render_single u l) p =
        if p = u.render.sort_cmdt then
          { cmdt_read u p with cmd_link := l + u.render.sort_link }
        else cmdt_read u p := by
  refine ⟨?_, rfl, fun p => ?_⟩
  · have h := (cmdt_write_frame u u.render.sort_cmdt
      { cmdt_read u u.render.sort_cmdt with cmd_link := l + u.render.sort_link }).1
    exact ⟨h.1, h.2.1, h.2.2.1, h.2.2.2.1, h.2.2.2.2⟩
  · show cmdt_read (cmdt_write u u.render.sort_cmdt
      { cmdt_read u u.render.sort_cmdt with cmd_link := l + u.render.sort_link }) p = _
    rw [cmdt_read_write]
    by_cases hp : p = u.render.sort_cmdt
    · rw [if_pos hp, if_pos hp, hp]
    · rw [if_neg hp, if_neg hp]

theorem render_single_fold (L : List Nat) : ∀ (u : State),
    chain_frame u (L.foldl _render_single u) ∧
      (L.foldl _render_single u).render.sort_cmdt = chain_end u.render.sort_cmdt L ∧
      ∀ p, cmdt_read (L.foldl _render_single u) p =
        match chain_target u.render.sort_cmdt L p with
        | some x => { cmdt_read u p with cmd_link := x + u.render.sort_link }
        | none => cmdt_read u p := by
  induction L with
  | nil =>
    intro u
    exact ⟨⟨rfl, rfl, rfl, rfl, rfl⟩, rfl, fun p => rfl⟩
  | cons l rest ih =>
    intro u
    obtain ⟨hf1, hc1, hr1⟩ := render_single_step u l
    obtain ⟨hf2, hc2, hr2⟩ := ih (_render_single u l)
    rw [List.foldl_cons]
    refine ⟨chain_frame_trans hf1 hf2, ?_, fun p => ?_⟩
    · rw [hc2, hc1]; rfl
    · rw [hr2 p, hc1, hf1.2.2.1, hr1 p]
      show _ = match (match chain_target (cmdt_ptr.pool l) rest p with
        | some x => some x
        | none => if p = u.render.sort_cmdt then some l else none) with
        | some x => { cmdt_read u p with cmd_link := x + u.render.sort_link }
        | none => cmdt_read u p
      cases chain_target (cmdt_ptr.pool l) rest p with
      | some x =>
        by_cases hp : p = u.render.sort_cmdt
        · simp only [if_pos hp]
        · simp only [if_neg hp]
      | none =>
        by_cases hp : p = u.render.sort_cmdt
        · simp only [if_pos hp]
        · simp only [if_neg hp]

theorem chain_target_table (L : List Nat) : ∀ (first : cmdt_ptr) (k : Nat),
    chain_target first L (cmdt_ptr.table k) =
      if cmdt_ptr.table k = first then L.head? else none := by
  induction L with
  | nil => intro first k; simp [chain_target]
  | cons l rest ih =>
    intro first k
    unfold chain_target
    rw [ih (cmdt_ptr.pool l) k, if_neg (by simp)]
    rfl

theorem chain_target_pool (rest : List Nat) : ∀ (l : Nat), (l :: rest).Nodup →
    (∀ k a b, (l :: rest)[k]? = some a → (l :: rest)[k + 1]? = some b →
        chain_target (cmdt_ptr.pool l) rest (cmdt_ptr.pool a) = some b) ∧
      (∀ q, q ∉ (l :: rest).dropLast →
        chain_target (cmdt_ptr.pool l) rest (cmdt_ptr.pool q) = none) := by
  induction rest with
  | nil =>
    intro l _
    refine ⟨fun k a b _ hb => ?_, fun q _ => rfl⟩
    simp at hb
  | cons m rest ih =>
    intro l hnd
    have hnd2 : (m :: rest).Nodup := (List.nodup_cons.mp hnd).2
    have hl : l ∉ m :: rest := (List.nodup_cons.mp hnd).1
    obtain ⟨ih1, ih2⟩ := ih m hnd2
    refine ⟨fun k a b ha hb => ?_, fun q hq => ?_⟩
    · unfold chain_target
      cases k with
      | zero =>
        have ha' : l = a := by simpa using ha
        have hb' : m = b := by simpa using hb
        subst ha' hb'
        have hl2 : l ∉ (m :: rest).dropLast := fun h => hl (List.dropLast_subset _ h)
        rw [ih2 l hl2]
        simp
      | succ k =>
        have ha' : (m :: rest)[k]? = some a := by simpa using ha
        have hb' : (m :: rest)[k + 1]? = some b := by simpa using hb
        rw [ih1 k a b ha' hb']
    · unfold chain_target
      have hq' : q ≠ l ∧ q ∉ (m :: rest).dropLast := by
        rw [List.dropLast_cons₂] at hq
        simpa using hq
      rw [ih2 q hq'.2]
      simp [hq'.1]

theorem chain_end_eq (L : List Nat) : ∀ (first : cmdt_ptr),
    chain_end first L =
      match L.getLast? with
      | some l => cmdt_ptr.pool l
      | none => first := by
  induction L with
  | nil => intro first; rfl
  | cons l rest ih =>
    intro first
    unfold chain_end
    rw [ih]
    cases rest with
    | nil => rfl
    | cons m rest =>
      rw [List.getLast?_cons_cons, List.getLast?_eq_getLast _ (List.cons_ne_nil m rest)]

theorem chain_walk_eq (t : State) (cmdt_index : Nat) (L : List Nat) : ∀ (first : cmdt_ptr),
    (∀ l, L.head? = some l → (cmdt_read t first).cmd_link = l + cmdt_index) →
    (∀ k a b, L[k]? = some a → L[k + 1]? = some b →
      (cmdt_read t (cmdt_ptr.pool a)).cmd_link = b + cmdt_index) →
    chain_walk t cmdt_index first L.length = L := by
  induction L with
  | nil => intro first _ _; rfl
  | cons l rest ih =>
    intro first h0 hk
    show ((cmdt_read t first).cmd_link - cmdt_index) ::
      chain_walk t cmdt_index (cmdt_ptr.pool ((cmdt_read t first).cmd_link - cmdt_index))
        rest.length = l :: rest
    rw [h0 l rfl, Nat.add_sub_cancel]
    congr 1
    apply ih
    · intro m hm
      apply hk 0 l m (by simp)
      cases rest with
      | nil => simp at hm
      | cons x xs => simpa using hm
    · intro k a b ha hb
      exact hk (k + 1) a b (by simpa using ha) (by simpa using hb)

theorem mem_sort_iterate_ascending (B : Nat) (singles : List (Nat × Int)) (x : Nat × Int) :
    x ∈ sort_iterate_ascending B singles ↔ x ∈ singles ∧ 0 ≤ x.2 ∧ x.2 < (B : Int) := by
  unfold sort_iterate_ascending
  simp only [List.mem_flatMap, List.mem_range, List.mem_filter, decide_eq_true_eq]
  constructor
  · rintro ⟨b, hb, hx, hz⟩
    exact ⟨hx, by omega, by omega⟩
  · rintro ⟨hx, h0, h1⟩
    exact ⟨x.2.toNat, by omega, hx, by omega⟩

theorem sort_iterate_ascending_succ (B : Nat) (singles : List (Nat × Int)) :
    sort_iterate_ascending (B + 1) singles =
      sort_iterate_ascending B singles ++
        singles.filter (fun single => decide (single.2 = (B : Int))) := by
  unfold sort_iterate_ascending
  rw [List.range_succ, List.flatMap_append]
  simp

theorem sort_iterate_ascending_sorted (B : Nat) (singles : List (Nat × Int)) :
    (sort_iterate_ascending B singles).Pairwise (fun a b => a.2 ≤ b.2) := by
  induction B with
  | zero => simp [sort_iterate_ascending]
  | succ B ih =>
    rw [sort_iterate_ascending_succ, List.pairwise_append]
    refine ⟨ih, ?_, ?_⟩
    · apply List.pairwise_of_forall_mem_list
      intro a ha b hb
      have h1 := (List.mem_filter.mp ha).2
      have h2 := (List.mem_filter.mp hb).2
      simp only [decide_eq_true_eq] at h1 h2
      omega
    · intro a ha b hb
      have h1 := (mem_sort_iterate_ascending B singles a).mp ha
      have h2 := (List.mem_filter.mp hb).2
      simp only [decide_eq_true_eq] at h2
      omega

theorem sort_iterate_ascending_stable (B : Nat) (singles : List (Nat × Int)) (b : Nat)
    (hb : b < B) :
    (sort_iterate_ascending B singles).filter (fun single => decide (single.2 = (b : Int))) =
      singles.filter (fun single => decide (single.2 = (b : Int))) := by
  induction B with
  | zero => omega
  | succ B ih =>
    rw [sort_iterate_ascending_succ, List.filter_append]
    by_cases hlt : b < B
    · rw [ih hlt]
      have hnil : (singles.filter (fun single => decide (single.2 = (B : Int)))).filter
          (fun single => decide (single.2 = (b : Int))) = [] := by
        rw [List.filter_eq_nil_iff]
        intro a ha
        have h1 := (List.mem_filter.mp ha).2
        simp only [decide_eq_true_eq] at h1 ⊢
        omega
      rw [hnil, List.append_nil]
    · have hbB : b = B := by omega
      subst hbB
      have hnil : (sort_iterate_ascending b singles).filter
          (fun single => decide (single.2 = (b : Int))) = [] := by
        rw [List.filter_eq_nil_iff]
        intro a ha
        have h1 := (mem_sort_iterate_ascending b singles a).mp ha
        simp only [decide_eq_true_eq]
        omega
      rw [hnil, List.nil_append, List.filter_filter]
      congr 1
      funext a
      simp

theorem cmdt_read_congr (u v : State) (h1 : v.cmd_table = u.cmd_table)
    (h2 : v.render.cmdts_pool = u.render.cmdts_pool) (p : cmdt_ptr) :
    cmdt_read v p = cmdt_read u p := by
  cases p with
  | table k => show v.cmd_table k = u.cmd_table k; rw [h1]
  | pool k => show v.render.cmdts_pool k = u.render.cmdts_pool k; rw [h2]

/-- With a nonzero visible count, the trace and the records `render` leaves behind, through
the records `R1` after the call link type is set and `R2` after the depth-sort iteration. -/
theorem render_nonempty (env : Env) (s : State) (subr_index cmdt_index : Nat)
    (hN : s.render.cmdt_count ≠ 0) :
    (render env s subr_index cmdt_index).trace =
        s.trace ++ [Event.sort_iterate,
          Event.vdp1_sync_cmdt_put 0 s.render.cmdt_count cmdt_index, Event.light_gst_put] ∧
      ∃ R1 R2 : cmdt_ptr → vdp1_cmdt_t,
        (∀ p, R1 p =
          if p = cmdt_ptr.table subr_index then
            { cmdt_read s p with
              cmd_ctrl := env.vdp1_cmdt_link_type_set (cmdt_read s p).cmd_ctrl
                env.VDP1_CMDT_LINK_TYPE_JUMP_CALL }
          else cmdt_read s p) ∧
        (∀ p, R2 p =
          match chain_target (cmdt_ptr.table subr_index) (env.sort_iterate s.sort) p with
          | some x => { R1 p with cmd_link := x + cmdt_index }
          | none => R1 p) ∧
        (∀ p, cmdt_read (render env s subr_index cmdt_index) p =
          if p = chain_end (cmdt_ptr.table subr_index) (env.sort_iterate s.sort) then
            { R2 p with
              cmd_ctrl := env.vdp1_cmdt_link_type_set (R2 p).cmd_ctrl
                env.VDP1_CMDT_LINK_TYPE_JUMP_RETURN }
          else R2 p) := by
  obtain ⟨u1, hu1⟩ : ∃ u1 : State, u1 =
      { (vdp1_cmdt_link_type_set env
          { s with render := { s.render with
              sort_cmdt := cmdt_ptr.table subr_index, sort_link := cmdt_index } }
          (cmdt_ptr.table subr_index) env.VDP1_CMDT_LINK_TYPE_JUMP_CALL) with
        trace := s.trace ++ [Event.sort_iterate] } := ⟨_, rfl⟩
  obtain ⟨u2, hu2⟩ : ∃ u2 : State, u2 = (env.sort_iterate s.sort).foldl _render_single u1 :=
    ⟨_, rfl⟩
  have hrender : render env s subr_index cmdt_index =
      __light_gst_put (vdp1_sync_cmdt_put
        (vdp1_cmdt_link_type_set env u2 u2.render.sort_cmdt env.VDP1_CMDT_LINK_TYPE_JUMP_RETURN)
        0
        (vdp1_cmdt_link_type_set env u2 u2.render.sort_cmdt
          env.VDP1_CMDT_LINK_TYPE_JUMP_RETURN).render.cmdt_count
        (vdp1_cmdt_link_type_set env u2 u2.render.sort_cmdt
          env.VDP1_CMDT_LINK_TYPE_JUMP_RETURN).render.sort_link) := by
    rw [hu2, hu1]
    unfold render
    simp only []
    rw [if_neg hN]
    rfl
  obtain ⟨hf, hc, hr⟩ := render_single_fold (env.sort_iterate s.sort) u1
  rw [← hu2] at hf hc hr
  have h1c : u1.render.sort_cmdt = cmdt_ptr.table subr_index := by rw [hu1]; rfl
  have h1l : u1.render.sort_link = cmdt_index := by rw [hu1]; rfl
  have h1n : u1.render.cmdt_count = s.render.cmdt_count := by rw [hu1]; rfl
  have h1t : u1.trace = s.trace ++ [Event.sort_iterate] := by rw [hu1]
  have h1r : ∀ p, cmdt_read u1 p =
      if p = cmdt_ptr.table subr_index then
        { cmdt_read s p with
          cmd_ctrl := env.vdp1_cmdt_link_type_set (cmdt_read s p).cmd_ctrl
            env.VDP1_CMDT_LINK_TYPE_JUMP_CALL }
      else cmdt_read s p := by
    intro p
    have e : cmdt_read u1 p = cmdt_read (vdp1_cmdt_link_type_set env
        { s with render := { s.render with
            sort_cmdt := cmdt_ptr.table subr_index, sort_link := cmdt_index } }
        (cmdt_ptr.table subr_index) env.VDP1_CMDT_LINK_TYPE_JUMP_CALL) p := by
      rw [hu1]; exact cmdt_read_congr _ _ rfl rfl p
    rw [e]
    unfold vdp1_cmdt_link_type_set
    simp only []
    rw [cmdt_read_write]
    by_cases hp : p = cmdt_ptr.table subr_index
    · rw [if_pos hp, if_pos hp, hp]; rfl
    · rw [if_neg hp, if_neg hp]
      exact cmdt_read_congr _ _ rfl rfl p
  have hw := cmdt_write_frame u2 u2.render.sort_cmdt
    { cmdt_read u2 u2.render.sort_cmdt with
      cmd_ctrl := env.vdp1_cmdt_link_type_set (cmdt_read u2 u2.render.sort_cmdt).cmd_ctrl
        env.VDP1_CMDT_LINK_TYPE_JUMP_RETURN }
  have h3 : vdp1_cmdt_link_type_set env u2 u2.render.sort_cmdt
      env.VDP1_CMDT_LINK_TYPE_JUMP_RETURN = cmdt_write u2 u2.render.sort_cmdt
        { cmdt_read u2 u2.render.sort_cmdt with
          cmd_ctrl := env.vdp1_cmdt_link_type_set (cmdt_read u2 u2.render.sort_cmdt).cmd_ctrl
            env.VDP1_CMDT_LINK_TYPE_JUMP_RETURN } := rfl
  constructor
  · rw [hrender, h3]
    show (cmdt_write u2 _ _).trace ++ [Event.vdp1_sync_cmdt_put 0
      (cmdt_write u2 _ _).render.cmdt_count (cmdt_write u2 _ _).render.sort_link] ++
      [Event.light_gst_put] = _
    rw [hw.1.1, hw.1.2.2.1, hw.1.2.2.2.1, hf.1, hf.2.2.1, hf.2.2.2.1, h1t, h1l, h1n]
    simp
  · refine ⟨cmdt_read u1, cmdt_read u2, h1r, ?_, ?_⟩
    · intro p
      rw [hr p, h1c, h1l]
    · intro p
      have e : cmdt_read (render env s subr_index cmdt_index) p =
          cmdt_read (cmdt_write u2 u2.render.sort_cmdt
            { cmdt_read u2 u2.render.sort_cmdt with
              cmd_ctrl := env.vdp1_cmdt_link_type_set
                (cmdt_read u2 u2.render.sort_cmdt).cmd_ctrl
                env.VDP1_CMDT_LINK_TYPE_JUMP_RETURN }) p := by
        rw [hrender, h3]
        exact cmdt_read_congr _ _ rfl rfl p
      rw [e, cmdt_read_write, hc, h1c]
      by_cases hp : p = chain_end (cmdt_ptr.table subr_index) (env.sort_iterate s.sort)
      · rw [if_pos hp, if_pos hp, hp]
      · rw [if_neg hp, if_neg hp]

/-- C8: with a visible count `N > 0` and the pairwise distinct pool links `L1 .. LN` that
the depth-sort iteration visits, `render subr_index cmdt_index` sets the link type of the
subroutine record to call and its link to `L1 + cmdt_index`, sets the link of pool record
`L_i` to `L_(i+1) + cmdt_index`, sets the link type of pool record `L_N` to return, and
submits `(pool base, N, cmdt_index)` to the display; following the links from the subroutine
record therefore visits `L1 .. LN` in this order. Hence, when the iteration walks the
buckets in ascending scaled depth and each bucket in insertion order, the chain visits the
records in non-decreasing scaled depth and, within one scaled depth, in submission order. -/
theorem render_chain (env : Env) (s : State) (subr_index cmdt_index : Nat)
    (hN : s.render.cmdt_count ≠ 0) (hne : env.sort_iterate s.sort ≠ [])
    (hnd : (env.sort_iterate s.sort).Nodup) :
    ((render env s subr_index cmdt_index).cmd_table subr_index).cmd_ctrl =
        env.vdp1_cmdt_link_type_set (s.cmd_table subr_index).cmd_ctrl
          env.VDP1_CMDT_LINK_TYPE_JUMP_CALL ∧
      (∀ l, (env.sort_iterate s.sort).head? = some l →
        ((render env s subr_index cmdt_index).cmd_table subr_index).cmd_link = l + cmdt_index) ∧
      (∀ k a b, (env.sort_iterate s.sort)[k]? = some a →
        (env.sort_iterate s.sort)[k + 1]? = some b →
        ((render env s subr_index cmdt_index).render.cmdts_pool a).cmd_link = b + cmdt_index) ∧
      (∀ l, (env.sort_iterate s.sort).getLast? = some l →
        ((render env s subr_index cmdt_index).render.cmdts_pool l).cmd_ctrl =
          env.vdp1_cmdt_link_type_set (s.render.cmdts_pool l).cmd_ctrl
            env.VDP1_CMDT_LINK_TYPE_JUMP_RETURN) ∧
      (render env s subr_index cmdt_index).trace =
        s.trace ++ [Event.sort_iterate,
          Event.vdp1_sync_cmdt_put 0 s.render.cmdt_count cmdt_index, Event.light_gst_put] ∧
      chain_walk (render env s subr_index cmdt_index) cmdt_index (cmdt_ptr.table subr_index)
        (env.sort_iterate s.sort).length = env.sort_iterate s.sort ∧
      (∀ B, env.sort_iterate s.sort = (sort_iterate_ascending B s.sort).map Prod.fst →
        chain_walk (render env s subr_index cmdt_index) cmdt_index
            (cmdt_ptr.table subr_index) (sort_iterate_ascending B s.sort).length =
          (sort_iterate_ascending B s.sort).map Prod.fst ∧
        (sort_iterate_ascending B s.sort).Pairwise (fun a b => a.2 ≤ b.2) ∧
        ∀ b, b < B →
          (sort_iterate_ascending B s.sort).filter (fun single => decide (single.2 = (b : Int)))
            = s.sort.filter (fun single => decide (single.2 = (b : Int)))) := by
  obtain ⟨htrace, R1, R2, h1, h2, h3⟩ := render_nonempty env s subr_index cmdt_index hN
  obtain ⟨l0, rest, hL⟩ : ∃ l0 rest, env.sort_iterate s.sort = l0 :: rest := by
    cases h : env.sort_iterate s.sort with
    | nil => exact absurd h hne
    | cons a r => exact ⟨a, r, rfl⟩
  have hnd2 : (l0 :: rest).Nodup := hL ▸ hnd
  obtain ⟨hadj, hnone⟩ := chain_target_pool rest l0 hnd2
  -- the last visited record
  have hlast : ∃ last, (l0 :: rest).getLast? = some last ∧
      chain_end (cmdt_ptr.table subr_index) (l0 :: rest) = cmdt_ptr.pool last := by
    refine ⟨(l0 :: rest).getLast (List.cons_ne_nil _ _),
      List.getLast?_eq_getLast _ _, ?_⟩
    rw [chain_end_eq, List.getLast?_eq_getLast _ (List.cons_ne_nil _ _)]
  obtain ⟨last, hlast1, hlast2⟩ := hlast
  have hlast_notin : last ∉ (l0 :: rest).dropLast := by
    intro hmem
    have hsplit : (l0 :: rest).dropLast ++ [last] = l0 :: rest := by
      have := List.dropLast_append_getLast? last hlast1
      simpa using this
    rw [← hsplit] at hnd2
    have := (List.nodup_append.mp hnd2).2.2
    exact this hmem (List.mem_singleton_self _) 
  -- chain targets
  have htab : chain_target (cmdt_ptr.table subr_index) (l0 :: rest)
      (cmdt_ptr.table subr_index) = some l0 := by
    rw [chain_target_table, if_pos rfl]; rfl
  have hpool : ∀ a, chain_target (cmdt_ptr.table subr_index) (l0 :: rest) (cmdt_ptr.pool a) =
      chain_target (cmdt_ptr.pool l0) rest (cmdt_ptr.pool a) := by
    intro a
    show (match chain_target (cmdt_ptr.pool l0) rest (cmdt_ptr.pool a) with
      | some x => some x
      | none => if cmdt_ptr.pool a = cmdt_ptr.table subr_index then some l0 else none) = _
    cases chain_target (cmdt_ptr.pool l0) rest (cmdt_ptr.pool a) with
    | some x => rfl
    | none => simp
  rw [hL] at h2 h3 ⊢
  -- reads
  have rtab : cmdt_read (render env s subr_index cmdt_index) (cmdt_ptr.table subr_index) =
      { (s.cmd_table subr_index) with
        cmd_ctrl := env.vdp1_cmdt_link_type_set (s.cmd_table subr_index).cmd_ctrl
          env.VDP1_CMDT_LINK_TYPE_JUMP_CALL
        cmd_link := l0 + cmdt_index } := by
    rw [h3, hlast2, if_neg (by simp), h2, htab, h1, if_pos rfl]
    rfl
  have radj : ∀ k a b, (l0 :: rest)[k]? = some a → (l0 :: rest)[k + 1]? = some b →
      cmdt_read (render env s subr_index cmdt_index) (cmdt_ptr.pool a) =
        { (s.render.cmdts_pool a) with cmd_link := b + cmdt_index } := by
    intro k a b ha hb
    have hne_last : a ≠ last := by
      intro h
      apply hlast_notin
      rw [← h]
      have hk : k < (l0 :: rest).dropLast.length := by
        have := (List.getElem?_eq_some_iff.mp hb).1
        simp at this ⊢
        omega
      have := List.getElem_mem hk
      rw [List.getElem_dropLast] at this
      have ha' := (List.getElem?_eq_some_iff.mp ha).2
      rw [← ha']
      exact this
    rw [h3, hlast2, if_neg (by simpa using hne_last), h2, hpool, hadj k a b ha hb, h1,
      if_neg (by simp)]
    rfl
  have rlast : cmdt_read (render env s subr_index cmdt_index) (cmdt_ptr.pool last) =
      { (s.render.cmdts_pool last) with
        cmd_ctrl := env.vdp1_cmdt_link_type_set (s.render.cmdts_pool last).cmd_ctrl
          env.VDP1_CMDT_LINK_TYPE_JUMP_RETURN } := by
    rw [h3, hlast2, if_pos rfl, h2, hpool, hnone last hlast_notin, h1, if_neg (by simp)]
    rfl
  have hwalk : chain_walk (render env s subr_index cmdt_index) cmdt_index
      (cmdt_ptr.table subr_index) (l0 :: rest).length = l0 :: rest := by
    apply chain_walk_eq
    · intro l hl
      have : l0 = l := by simpa using hl
      rw [rtab, ← this]
    · intro k a b ha hb
      rw [radj k a b ha hb]
  refine ⟨?_, ?_, ?_, ?_, htrace, hwalk, ?_⟩
  · show (cmdt_read (render env s subr_index cmdt_index) (cmdt_ptr.table subr_index)).cmd_ctrl = _
    rw [rtab]
  · intro l hl
    have : l0 = l := by simpa using hl
    show (cmdt_read (render env s subr_index cmdt_index) (cmdt_ptr.table subr_index)).cmd_link = _
    rw [rtab, ← this]
  · intro k a b ha hb
    show (cmdt_read (render env s subr_index cmdt_index) (cmdt_ptr.pool a)).cmd_link = _
    rw [radj k a b ha hb]
  · intro l hl
    have : last = l := by
      rw [hlast1] at hl
      exact Option.some.inj hl
    subst this
    show (cmdt_read (render env s subr_index cmdt_index) (cmdt_ptr.pool last)).cmd_ctrl = _
    rw [rlast]
  · intro B hB
    refine ⟨?_, sort_iterate_ascending_sorted B s.sort,
      fun b hb => sort_iterate_ascending_stable B s.sort b hb⟩
    have hlen : (sort_iterate_ascending B s.sort).length = (l0 :: rest).length := by
      rw [hB, List.length_map]
    rw [hlen, hwalk, hB]

/-- Witness of C8: three visible records inserted at scaled depths 5, 2, 5 and an ascending
iteration of 8 buckets, which visits the slots 1, 0, 2. `render 4 10` links command table
record 4 to 11, pool record 1 to 10 and pool record 0 to 12, ends the chain in pool
record 2 and submits `(0, 3, 10)`. -/
theorem render_chain_witness :
    (three_singles_state.render.cmdt_count ≠ 0 ∧
      env_ascending.sort_iterate three_singles_state.sort = [1, 0, 2]) ∧
      ((render env_ascending three_singles_state 4 10).cmd_table 4).cmd_ctrl =
        env_ascending.vdp1_cmdt_link_type_set (three_singles_state.cmd_table 4).cmd_ctrl
          env_ascending.VDP1_CMDT_LINK_TYPE_JUMP_CALL ∧
      chain_walk (render env_ascending three_singles_state 4 10) 10 (cmdt_ptr.table 4)
        (env_ascending.sort_iterate three_singles_state.sort).length =
        env_ascending.sort_iterate three_singles_state.sort ∧
      ((render env_ascending three_singles_state 4 10).cmd_table 4).cmd_link = 11 ∧
      ((render env_ascending three_singles_state 4 10).render.cmdts_pool 1).cmd_link = 10 ∧
      ((render env_ascending three_singles_state 4 10).render.cmdts_pool 0).cmd_link = 12 ∧
      ((render env_ascending three_singles_state 4 10).render.cmdts_pool 2).cmd_ctrl = 0x3000 ∧
      (render env_ascending three_singles_state 4 10).trace =
        [Event.sort_iterate, Event.vdp1_sync_cmdt_put 0 3 10, Event.light_gst_put] :=
  ⟨⟨by decide, by decide⟩,
    (render_chain env_ascending three_singles_state 4 10 (by decide) (by decide)
      (by decide)).1,
    (render_chain env_ascending three_singles_state 4 10 (by decide) (by decide)
      (by decide)).2.2.2.2.2.1,
    by decide, by decide, by decide, by decide, by decide⟩

/-! ## The polygon loop -/

theorem polygon_step_same_scene (env : Env) (s : State) (i : Nat) :
    same_scene s (render_mesh_transform_polygon env s i) := by
  unfold render_mesh_transform_polygon
  simp only []
  split
  · exact ⟨rfl, rfl, rfl, rfl, rfl⟩
  · split
    · exact ⟨rfl, rfl, rfl, rfl, rfl⟩
    · split
      · exact ⟨rfl, rfl, rfl, rfl, rfl⟩
      · exact ⟨rfl, rfl, rfl, rfl, rfl⟩

theorem same_scene_refl (s : State) : same_scene s s := ⟨rfl, rfl, rfl, rfl, rfl⟩

theorem same_scene_trans {s t u : State} (h1 : same_scene s t) (h2 : same_scene t u) :
    same_scene s u :=
  ⟨h2.1.trans h1.1, h2.2.1.trans h1.2.1, h2.2.2.1.trans h1.2.2.1, h2.2.2.2.1.trans h1.2.2.2.1,
    h2.2.2.2.2.trans h1.2.2.2.2⟩

theorem polygon_visible_congr (env : Env) (s t : State) (i : Nat) (h : same_scene s t) :
    polygon_visible env t i ↔ polygon_visible env s i := by
  obtain ⟨h1, h2, h3, h4, _⟩ := h
  have hsp : polygon_screen_points t i = polygon_screen_points s i := by
    unfold polygon_screen_points; rw [h1, h3]
  have hz : polygon_z_values t i = polygon_z_values s i := by
    unfold polygon_z_values; rw [h1, h2]
  have hb : _backface_cull_test (polygon_gather t i) = _backface_cull_test (polygon_gather s i) := by
    show _backface_cull_test { (polygon_gather t i) with screen_points := polygon_screen_points t i }
      = _backface_cull_test { (polygon_gather s i) with screen_points := polygon_screen_points s i }
    rw [hsp]
    rfl
  have hd : polygon_depth env t i = polygon_depth env s i := by
    unfold polygon_depth _depth_calculate
    show (match env.sort_type (t.render.mesh.attributes i).control with
      | sort_type_t.SORT_TYPE_MIN => _depth_min_calculate (polygon_z_values t i)
      | sort_type_t.SORT_TYPE_MAX => _depth_max_calculate (polygon_z_values t i)
      | _ => _depth_center_calculate (polygon_z_values t i)) =
      (match env.sort_type (s.render.mesh.attributes i).control with
      | sort_type_t.SORT_TYPE_MIN => _depth_min_calculate (polygon_z_values s i)
      | sort_type_t.SORT_TYPE_MAX => _depth_max_calculate (polygon_z_values s i)
      | _ => _depth_center_calculate (polygon_z_values s i))
    rw [hz, h1]
  have ha : polygon_and_flags env t i = polygon_and_flags env s i := by
    show _clip_flags_lrtb_calculate env (polygon_screen_points t i).e0 &&&
      _clip_flags_lrtb_calculate env (polygon_screen_points t i).e1 &&&
      _clip_flags_lrtb_calculate env (polygon_screen_points t i).e2 &&&
      _clip_flags_lrtb_calculate env (polygon_screen_points t i).e3 =
      _clip_flags_lrtb_calculate env (polygon_screen_points s i).e0 &&&
      _clip_flags_lrtb_calculate env (polygon_screen_points s i).e1 &&&
      _clip_flags_lrtb_calculate env (polygon_screen_points s i).e2 &&&
      _clip_flags_lrtb_calculate env (polygon_screen_points s i).e3
    rw [hsp]
  unfold polygon_visible polygon_backface_culled
  rw [hb, hd, ha, h1, h4]

theorem visible_count_congr (env : Env) (s t : State) (n : Nat) (h : same_scene s t) :
    visible_count env t n = visible_count env s n := by
  unfold visible_count
  congr 2
  funext i
  exact decide_eq_decide.mpr (polygon_visible_congr env s t i h)

theorem visible_count_succ (env : Env) (s : State) (n : Nat) :
    visible_count env s (n + 1) =
      visible_count env s n + (if polygon_visible env s n then 1 else 0) := by
  unfold visible_count
  rw [List.range_succ, List.filter_append, List.length_append]
  by_cases h : polygon_visible env s n
  · simp [h]
  · simp [h]

theorem visible_count_le (env : Env) (s : State) (n : Nat) : visible_count env s n ≤ n := by
  unfold visible_count
  exact (List.length_filter_le _ _).trans (by simp)

theorem polygon_step_counts (env : Env) (s : State) (i : Nat) :
    (render_mesh_transform_polygon env s i).render.cmdts =
        s.render.cmdts + (if polygon_visible env s i then 1 else 0) ∧
      (render_mesh_transform_polygon env s i).render.cmdt_count =
        s.render.cmdt_count + (if polygon_visible env s i then 1 else 0) ∧
      (render_mesh_transform_polygon env s i).sort.length =
        s.sort.length + (if polygon_visible env s i then 1 else 0) := by
  rcases polygon_step_cases env s i with ⟨h0, h⟩ | ⟨_, h0, h⟩ | ⟨_, _, h0, h⟩ |
    ⟨h1, h2, h3, hc, hn, hs, _⟩
  · have hv : ¬ polygon_visible env s i := fun hv => hv.1 h0
    rw [if_neg hv]
    exact ⟨h.1, h.2.1, by rw [h.2.2.2.1]; rfl⟩
  · have hv : ¬ polygon_visible env s i := fun hv => hv.2.1 h0
    rw [if_neg hv]
    exact ⟨h.1, h.2.1, by rw [h.2.2.2.1]; rfl⟩
  · have hv : ¬ polygon_visible env s i := fun hv => h0 hv.2.2
    rw [if_neg hv]
    exact ⟨h.1, h.2.1, by rw [h.2.2.2.1]; rfl⟩
  · have hv : polygon_visible env s i := ⟨h1, h2, h3⟩
    rw [if_pos hv]
    exact ⟨hc, hn, by rw [hs]; simp⟩

theorem polygon_loop_counts (env : Env) (s : State) (n : Nat) :
    same_scene s ((List.range n).foldl (render_mesh_transform_polygon env) s) ∧
      ((List.range n).foldl (render_mesh_transform_polygon env) s).render.cmdts =
        s.render.cmdts + visible_count env s n ∧
      ((List.range n).foldl (render_mesh_transform_polygon env) s).render.cmdt_count =
        s.render.cmdt_count + visible_count env s n ∧
      ((List.range n).foldl (render_mesh_transform_polygon env) s).sort.length =
        s.sort.length + visible_count env s n := by
  induction n with
  | zero => exact ⟨same_scene_refl s, rfl, rfl, rfl⟩
  | succ n ih =>
    obtain ⟨hs, hc, hn, hl⟩ := ih
    rw [List.range_succ, List.foldl_append]
    simp only [List.foldl_cons, List.foldl_nil]
    obtain ⟨kc, kn, kl⟩ := polygon_step_counts env
      ((List.range n).foldl (render_mesh_transform_polygon env) s) n
    have hv : (if polygon_visible env
        ((List.range n).foldl (render_mesh_transform_polygon env) s) n then 1 else 0) =
        (if polygon_visible env s n then 1 else 0) :=
      if_congr (polygon_visible_congr env s _ n hs) rfl rfl
    rw [hv] at kc kn kl
    refine ⟨same_scene_trans hs (polygon_step_same_scene env _ n), ?_, ?_, ?_⟩
    · rw [kc, hc, visible_count_succ]; omega
    · rw [kn, hn, visible_count_succ]; omega
    · rw [kl, hl, visible_count_succ]; omega

theorem render_mesh_transform_eq (env : Env) (s : State) (mesh : mesh_t) :
    render_mesh_transform env s mesh =
      (List.range mesh.polygons_count).foldl (render_mesh_transform_polygon env)
        (pass_start env s mesh) := by
  have h : (pass_start env s mesh).render.mesh = mesh := by
    unfold pass_start
    rw [transform_eq]
    rfl
  unfold render_mesh_transform
  simp only []
  show (List.range (pass_start env s mesh).render.mesh.polygons_count).foldl _ _ = _
  rw [h]
  rfl

/-! ## Command pool bound -/

/-- C7 (counterexample): for a pool of capacity 2, `render_start` followed by a pass over a
mesh of three visible quads ends with visible count 3 and cursor 3, outside the pool; the
third record is written to slot 2, one past the last slot of the pool, and all three singles
are inserted: the overflow is neither detected nor reported. -/
theorem pool_overflow_undetected :
    visible_count env0 (pass_start env0 (render_start state0) three_quads_mesh) 3 = 3 ∧
      ¬ pool_within 2 (render_mesh_transform env0 (render_start state0) three_quads_mesh) ∧
      (render_mesh_transform env0 (render_start state0) three_quads_mesh).render.cmdt_count = 3 ∧
      (render_mesh_transform env0 (render_start state0) three_quads_mesh).render.cmdts = 3 ∧
      (render_mesh_transform env0 (render_start state0) three_quads_mesh).render.cmdts_pool 2 =
        { cmdt0 with
          cmd_ctrl := 0x1000
          cmd_pmod := 0x0800
          cmd_vertices := ⟨⟨-88, 87⟩, ⟨-88, -88⟩, ⟨87, 87⟩, ⟨87, -88⟩⟩ } ∧
      (render_mesh_transform env0 (render_start state0) three_quads_mesh).render.cmdts_pool 2 ≠
        (render_start state0).render.cmdts_pool 2 ∧
      (render_mesh_transform env0 (render_start state0) three_quads_mesh).sort =
        [(0, 0), (1, 0), (2, 0)] := by
  refine ⟨by decide, by decide, by decide, by decide, by decide, by decide, by decide⟩

/-- C7 (amended): starting from `render_start`, a pass emits every visible polygon of the
mesh, whatever their number: the allocation step has no bounds check, it hands out the slot
under the cursor and advances the cursor by one. After the pass the visible count and the
cursor both equal the number of visible polygons, so they stay within a pool of `capacity`
records exactly when at most `capacity` visible polygons were submitted. -/
theorem pool_cursor_unchecked (env : Env) (s : State) (mesh : mesh_t) :
    (render_mesh_transform env (render_start s) mesh).render.cmdt_count =
        visible_count env (pass_start env (render_start s) mesh) mesh.polygons_count ∧
      (render_mesh_transform env (render_start s) mesh).render.cmdts =
        visible_count env (pass_start env (render_start s) mesh) mesh.polygons_count ∧
      (render_mesh_transform env (render_start s) mesh).sort.length =
        visible_count env (pass_start env (render_start s) mesh) mesh.polygons_count ∧
      (∀ capacity,
        pool_within capacity (render_mesh_transform env (render_start s) mesh) ↔
          visible_count env (pass_start env (render_start s) mesh) mesh.polygons_count
            ≤ capacity) ∧
      (∀ (u : State) (i : Nat), polygon_visible env u i →
        (render_mesh_transform_polygon env u i).render.cmdts = u.render.cmdts + 1 ∧
        (render_mesh_transform_polygon env u i).render.cmdt_count = u.render.cmdt_count + 1 ∧
        (render_mesh_transform_polygon env u i).render.cmdts_pool =
          arr_set u.render.cmdts_pool u.render.cmdts
            (_cmdt_process env (polygon_lit env u i) (u.render.cmdts_pool u.render.cmdts))) := by
  obtain ⟨_, hc, hn, hl⟩ := polygon_loop_counts env (pass_start env (render_start s) mesh)
    mesh.polygons_count
  have h0c : (pass_start env (render_start s) mesh).render.cmdts = 0 := by
    unfold pass_start; rw [transform_eq]; rfl
  have h0n : (pass_start env (render_start s) mesh).render.cmdt_count = 0 := by
    unfold pass_start; rw [transform_eq]; rfl
  have h0l : (pass_start env (render_start s) mesh).sort.length = 0 := by
    unfold pass_start; rw [transform_eq]; rfl
  rw [render_mesh_transform_eq]
  rw [h0c, Nat.zero_add] at hc
  rw [h0n, Nat.zero_add] at hn
  rw [h0l, Nat.zero_add] at hl
  refine ⟨hn, hc, hl, fun capacity => ?_, fun u i hv => ?_⟩
  · unfold pool_within
    rw [hn, hc]
    exact and_self_iff
  · rcases polygon_step_cases env u i with ⟨h0, _⟩ | ⟨_, h0, _⟩ | ⟨_, _, h0, _⟩ |
      ⟨_, _, _, kc, kn, _, _, kp, _⟩
    · exact absurd h0 hv.1
    · exact absurd h0 hv.2.1
    · exact absurd hv.2.2 h0
    · exact ⟨kc, kn, kp⟩

/-- Witness of C7 (amended): for the three visible quads of `three_quads_mesh`, a pool of
capacity 3 is respected, and the third quad is emitted from a cursor of 2. -/
theorem pool_cursor_unchecked_witness :
    visible_count env0 (pass_start env0 (render_start state0) three_quads_mesh)
        three_quads_mesh.polygons_count ≤ 3 ∧
      pool_within 3 (render_mesh_transform env0 (render_start state0) three_quads_mesh) ∧
      (render_mesh_transform env0 (render_start state0) three_quads_mesh).render.cmdt_count =
        3 :=
  ⟨by decide,
    ((pool_cursor_unchecked env0 state0 three_quads_mesh).2.2.2.1 3).mpr (by decide),
    (pool_cursor_unchecked env0 state0 three_quads_mesh).1.trans (by decide)⟩

/-! ## Projection configuration -/

theorem near_halving_fold (s : State) (k : Nat) :
    (List.range k).foldl
        (fun (s : State) (_ : Nat) =>
          { s with render := { s.render with near := s.render.near >>> (1 : Nat) } }) s =
      { s with render := { s.render with near := s.render.near >>> k } } := by
  induction k with
  | zero =>
    show s = { s with render := { s.render with near := s.render.near >>> (0 : Nat) } }
    rw [Int.shiftRight_eq_div_pow]
    simp
  | succ k ih =>
    rw [List.range_succ, List.foldl_append, ih]
    show { s with render := { s.render with near := s.render.near >>> k >>> (1 : Nat) } } = _
    rw [← Int.shiftRight_add]

theorem render_near_level_set_eq (s : State) (level : Nat) :
    render_near_level_set s level =
      { s with render := { s.render with
          near := s.render.view_distance >>>
            clamp ((level + 1) % 4294967296) NEAR_LEVEL_MIN NEAR_LEVEL_MAX } } := by
  unfold render_near_level_set
  simp only []
  rw [near_halving_fold]

theorem clamp_level_eq (n : Nat) : clamp n NEAR_LEVEL_MIN NEAR_LEVEL_MAX = max 1 (min n 8) := by
  unfold clamp NEAR_LEVEL_MIN NEAR_LEVEL_MAX
  split
  · omega
  · split <;> omega

theorem shiftRight_antitone (x : Int) (hx : 0 ≤ x) (j k : Nat) (h : j ≤ k) :
    x >>> k ≤ x >>> j := by
  obtain ⟨d, rfl⟩ := Nat.exists_eq_add_of_le h
  rw [Int.shiftRight_add, Int.shiftRight_eq_div_pow (x >>> j) d]
  apply Int.ediv_le_self
  rw [Int.shiftRight_eq_div_pow]
  exact Int.ediv_nonneg hx (by positivity)

/-- Below `UINT32_MAX` the near plane does not grow with the level, for a non-negative
view distance. -/
theorem near_level_monotone_below_max (s : State) (a b : Nat) (hvd : 0 ≤ s.render.view_distance)
    (hab : a ≤ b) (hb : b < 4294967295) :
    (render_near_level_set s b).render.near ≤ (render_near_level_set s a).render.near := by
  have ka : (render_near_level_set s a).render.near = s.render.view_distance >>>
      clamp ((a + 1) % 4294967296) NEAR_LEVEL_MIN NEAR_LEVEL_MAX := by
    rw [render_near_level_set_eq]
  have kb : (render_near_level_set s b).render.near = s.render.view_distance >>>
      clamp ((b + 1) % 4294967296) NEAR_LEVEL_MIN NEAR_LEVEL_MAX := by
    rw [render_near_level_set_eq]
  rw [ka, kb]
  apply shiftRight_antitone _ hvd
  rw [clamp_level_eq, clamp_level_eq, Nat.mod_eq_of_lt (by omega), Nat.mod_eq_of_lt (by omega)]
  omega

/-- C11 (counterexample): with view distance 175.5, level 0 sets `near` to the view
distance shifted right once (5750784), not twice (2875392), so level 0 does not behave as
level 1; level 8 sets `near` to the view distance shifted right 8 times (44928), not 9
times (22464). -/
theorem near_level_zero_and_eight :
    (render_near_level_set state0 0).render.near = 5750784 ∧
      state0.render.view_distance >>> (2 : Nat) = 2875392 ∧
      (render_near_level_set state0 1).render.near = 2875392 ∧
      (render_near_level_set state0 0).render.near ≠
        (render_near_level_set state0 1).render.near ∧
      (render_near_level_set state0 8).render.near = 44928 ∧
      state0.render.view_distance >>> (9 : Nat) = 22464 ∧
      (render_near_level_set state0 8).render.near ≠
        state0.render.view_distance >>> (9 : Nat) := by
  refine ⟨by decide, by decide, by decide, by decide, by decide, by decide, by decide⟩

/-- C11 (amended): for every level below `UINT32_MAX` and every view distance,
`render_near_level_set(level)` clamps `level + 1` into `[1, 8]` and sets `near` to the
view distance shifted right that many times: once for level 0, `level + 1` times for the
levels 1 to 7, and 8 times for every level from 7 up. View distance, far plane and sort
scale are left as they were. -/
theorem near_level_set_spec (s : State) (level : Nat) (h : level < 4294967295) :
    (render_near_level_set s level).render.near =
        s.render.view_distance >>> clamp (level + 1) NEAR_LEVEL_MIN NEAR_LEVEL_MAX ∧
      (render_near_level_set s level).render.near =
        s.render.view_distance / 2 ^ (min (level + 1) 8) ∧
      (level = 0 →
        (render_near_level_set s level).render.near = s.render.view_distance >>> (1 : Nat)) ∧
      (1 ≤ level → level ≤ 7 →
        (render_near_level_set s level).render.near = s.render.view_distance >>> (level + 1)) ∧
      (7 ≤ level →
        (render_near_level_set s level).render.near = s.render.view_distance >>> (8 : Nat)) ∧
      (render_near_level_set s level).render.view_distance = s.render.view_distance ∧
      (render_near_level_set s level).render.far = s.render.far ∧
      (render_near_level_set s level).render.sort_scale = s.render.sort_scale := by
  have hmod : (level + 1) % 4294967296 = level + 1 := Nat.mod_eq_of_lt (by omega)
  have key : (render_near_level_set s level).render.near =
      s.render.view_distance >>> clamp (level + 1) NEAR_LEVEL_MIN NEAR_LEVEL_MAX := by
    rw [render_near_level_set_eq, hmod]
  have hc : clamp (level + 1) NEAR_LEVEL_MIN NEAR_LEVEL_MAX = min (level + 1) 8 := by
    rw [clamp_level_eq]; omega
  refine ⟨key, ?_, fun h0 => ?_, fun h1 h7 => ?_, fun h7 => ?_, ?_, ?_, ?_⟩
  · rw [key, hc, Int.shiftRight_eq_div_pow]
    norm_cast
  · rw [key, hc, h0]; rfl
  · rw [key, hc, Nat.min_eq_left (by omega)]
  · rw [key, hc, Nat.min_eq_right (by omega)]
  · rw [render_near_level_set_eq]
  · rw [render_near_level_set_eq]
  · rw [render_near_level_set_eq]

/-- Witness of C11 (amended): level 3 shifts the view distance 175.5 right 4 times. -/
theorem near_level_set_spec_witness :
    (3 : Nat) < 4294967295 ∧
      (render_near_level_set state0 3).render.near =
        state0.render.view_distance >>> (3 + 1) ∧
      (render_near_level_set state0 3).render.near = 718848 :=
  ⟨by decide, (near_level_set_spec state0 3 (by decide)).2.2.2.1 (by decide) (by decide),
    by decide⟩

/-- C12 (failing input): for the view distance 175.5 and the levels 7 and `UINT32_MAX`,
`level + 1` wraps to 0 for the larger level, is clamped to 1, and `near` becomes 5750784,
above the 44928 of level 7: a larger level gives a larger near plane. -/
theorem near_level_wraps_at_max :
    0 ≤ state0.render.view_distance ∧ (7 : Nat) ≤ 4294967295 ∧
      (4294967295 + 1) % 4294967296 = 0 ∧
      (render_near_level_set state0 7).render.near = 44928 ∧
      (render_near_level_set state0 4294967295).render.near = 5750784 ∧
      ¬ (render_near_level_set state0 4294967295).render.near ≤
        (render_near_level_set state0 7).render.near := by
  refine ⟨by decide, by decide, by decide, by decide, by decide, by decide⟩

/-- C13: in a state with `0 < near <= FIX16(2048)`, `render_far_set(far)` stores a far
plane in `[near, FIX16(2048)]` (the input when it is in that range, `near` when it is
below, `FIX16(2048)` when it is above) and the sort scale
`fix16_div(FIX16(SORT_DEPTH - 1), far')` for the stored far plane `far'`, which is not
zero. -/
theorem far_set_spec (env : Env) (s : State) (far : Int) (h0 : 0 < s.render.near)
    (h1 : s.render.near ≤ FIX16 2048) :
    s.render.near ≤ (render_far_set env s far).render.far ∧
      (render_far_set env s far).render.far ≤ FIX16 2048 ∧
      (s.render.near ≤ far → far ≤ FIX16 2048 → (render_far_set env s far).render.far = far) ∧
      (far < s.render.near → (render_far_set env s far).render.far = s.render.near) ∧
      (FIX16 2048 < far → (render_far_set env s far).render.far = FIX16 2048) ∧
      (render_far_set env s far).render.sort_scale =
        env.fix16_div (FIX16 (env.SORT_DEPTH - 1)) (render_far_set env s far).render.far ∧
      (render_far_set env s far).render.far ≠ 0 ∧
      (render_far_set env s far).render.near = s.render.near ∧
      (render_far_set env s far).render.view_distance = s.render.view_distance := by
  have hfar : (render_far_set env s far).render.far =
      min (max far s.render.near) (FIX16 2048) := rfl
  refine ⟨?_, ?_, fun ha hb => ?_, fun ha => ?_, fun ha => ?_, rfl, ?_, rfl, rfl⟩
  · rw [hfar]; omega
  · rw [hfar]; omega
  · rw [hfar]; omega
  · rw [hfar]; omega
  · rw [hfar]; omega
  · rw [hfar]; omega

/-- Witness of C13: with `near = 44928`, the far input 0 is stored as 44928, the input
4096.0 as 2048.0 and the input 1024.0 as itself, with sort scale 511 / 1024. -/
theorem far_set_spec_witness :
    (0 < state0.render.near ∧ state0.render.near ≤ FIX16 2048) ∧
      state0.render.near ≤ (render_far_set env0 state0 0).render.far ∧
      (render_far_set env0 state0 0).render.far = 44928 ∧
      (render_far_set env0 state0 268435456).render.far = 134217728 ∧
      (render_far_set env0 state0 67108864).render.far = 67108864 ∧
      (render_far_set env0 state0 67108864).render.sort_scale = 32704 :=
  ⟨⟨by decide, by decide⟩, (far_set_spec env0 state0 0 (by decide) (by decide)).1,
    by decide, by decide, by decide, by decide⟩

theorem clamp_int_cases (x low high : Int) (h : low ≤ high) :
    low ≤ clamp x low high ∧ clamp x low high ≤ high ∧ (x ≤ low → clamp x low high = low) ∧
      (high ≤ x → clamp x low high = high) ∧
      (low ≤ x → x ≤ high → clamp x low high = x) := by
  unfold clamp
  split_ifs <;> refine ⟨?_, ?_, ?_, ?_, ?_⟩ <;> intros <;> omega

/-- C14: `render_perspective_set(angle)` sets the view distance to
`fix16_mul(FIX16(0.5 * (SCREEN_WIDTH - 1)), fix16_tan(clamp(angle, MIN, MAX) >> 1))`, so an
input at or below the minimum angle gives the view distance of the minimum angle and an
input at or above the maximum angle that of the maximum angle; near plane, far plane and
sort scale are left as they were. -/
theorem perspective_set_spec (env : Env) (s : State) (angle : Int)
    (hle : env.MIN_FOV_ANGLE ≤ env.MAX_FOV_ANGLE) :
    (render_perspective_set env s angle).render.view_distance =
        env.fix16_mul (screen_scale env)
          (env.fix16_tan (clamp angle env.MIN_FOV_ANGLE env.MAX_FOV_ANGLE >>> (1 : Nat))) ∧
      (env.MIN_FOV_ANGLE ≤ clamp angle env.MIN_FOV_ANGLE env.MAX_FOV_ANGLE ∧
        clamp angle env.MIN_FOV_ANGLE env.MAX_FOV_ANGLE ≤ env.MAX_FOV_ANGLE) ∧
      (env.MIN_FOV_ANGLE ≤ angle → angle ≤ env.MAX_FOV_ANGLE →
        clamp angle env.MIN_FOV_ANGLE env.MAX_FOV_ANGLE = angle) ∧
      (angle ≤ env.MIN_FOV_ANGLE →
        (render_perspective_set env s angle).render.view_distance =
          (render_perspective_set env s env.MIN_FOV_ANGLE).render.view_distance) ∧
      (env.MAX_FOV_ANGLE ≤ angle →
        (render_perspective_set env s angle).render.view_distance =
          (render_perspective_set env s env.MAX_FOV_ANGLE).render.view_distance) ∧
      (render_perspective_set env s angle).render.near = s.render.near ∧
      (render_perspective_set env s angle).render.far = s.render.far ∧
      (render_perspective_set env s angle).render.sort_scale = s.render.sort_scale := by
  have hvd : ∀ x : Int, (render_perspective_set env s x).render.view_distance =
      env.fix16_mul (screen_scale env)
        (env.fix16_tan (clamp x env.MIN_FOV_ANGLE env.MAX_FOV_ANGLE >>> (1 : Nat))) :=
    fun x => rfl
  obtain ⟨c1, c2, c3, c4, c5⟩ := clamp_int_cases angle _ _ hle
  refine ⟨hvd angle, ⟨c1, c2⟩, c5, fun ha => ?_, fun ha => ?_, rfl, rfl, rfl⟩
  · rw [hvd, hvd, c3 ha, (clamp_int_cases env.MIN_FOV_ANGLE _ _ hle).2.2.1 (le_refl _)]
  · rw [hvd, hvd, c4 ha, (clamp_int_cases env.MAX_FOV_ANGLE _ _ hle).2.2.2.1 (le_refl _)]

/-- Witness of C14: with angles in 1/65536 of a turn, the inputs 0 and 20 degrees (3640)
give the same view distance, and so do the inputs 30000 and 120 degrees (21845). -/
theorem perspective_set_spec_witness :
    env0.MIN_FOV_ANGLE ≤ env0.MAX_FOV_ANGLE ∧
      (render_perspective_set env0 state0 0).render.view_distance =
        (render_perspective_set env0 state0 env0.MIN_FOV_ANGLE).render.view_distance ∧
      (render_perspective_set env0 state0 30000).render.view_distance =
        (render_perspective_set env0 state0 env0.MAX_FOV_ANGLE).render.view_distance ∧
      (render_perspective_set env0 state0 16384).render.view_distance = 11501568 :=
  ⟨by decide,
    (perspective_set_spec env0 state0 0 (by decide)).2.2.2.1 (by decide),
    (perspective_set_spec env0 state0 30000 (by decide)).2.2.2.2.1 (by decide),
    by decide⟩

/-! ## Orientation of emitted polygons -/

theorem polygon_orient_eq_of (env : Env) (rt : render_transform_t) (lr tb : Prop)
    [Decidable lr] [Decidable tb]
    (hlr : rt.clip_flags.e0 &&& CLIP_FLAGS_LR env ≠ 0 ↔ lr)
    (htb : rt.clip_flags.e0 &&& CLIP_FLAGS_TB env ≠ 0 ↔ tb) :
    _polygon_orient env rt =
      (if tb then
        (fun r : render_transform_t => { r with
          indices := ⟨r.indices.e3, r.indices.e2, r.indices.e1, r.indices.e0⟩
          screen_points := ⟨r.screen_points.e3, r.screen_points.e2,
            r.screen_points.e1, r.screen_points.e0⟩
          rw_attribute := { r.rw_attribute with
            control := r.rw_attribute.control ^^^ env.VDP1_CMDT_CHAR_FLIP_V } })
      else id)
      ((if lr then
        (fun r : render_transform_t => { r with
          indices := ⟨r.indices.e1, r.indices.e0, r.indices.e3, r.indices.e2⟩
          screen_points := ⟨r.screen_points.e1, r.screen_points.e0,
            r.screen_points.e3, r.screen_points.e2⟩
          rw_attribute := { r.rw_attribute with
            control := r.rw_attribute.control ^^^ env.VDP1_CMDT_CHAR_FLIP_H } })
      else id) rt) := by
  unfold _polygon_orient
  by_cases h1 : lr <;> by_cases h2 : tb <;>
    simp [h1, h2, hlr.symm, htb.symm, Quad.get, CLIP_FLAGS_NONE] at * <;>
    simp [hlr, htb, _indices_swap, _screen_points_swap, Quad.get, Quad.set]

theorem polygon_orient_eq (env : Env) (rt : render_transform_t) :
    _polygon_orient env rt =
      (if rt.clip_flags.e0 &&& CLIP_FLAGS_TB env ≠ 0 then
        (fun r : render_transform_t => { r with
          indices := ⟨r.indices.e3, r.indices.e2, r.indices.e1, r.indices.e0⟩
          screen_points := ⟨r.screen_points.e3, r.screen_points.e2,
            r.screen_points.e1, r.screen_points.e0⟩
          rw_attribute := { r.rw_attribute with
            control := r.rw_attribute.control ^^^ env.VDP1_CMDT_CHAR_FLIP_V } })
      else id)
      ((if rt.clip_flags.e0 &&& CLIP_FLAGS_LR env ≠ 0 then
        (fun r : render_transform_t => { r with
          indices := ⟨r.indices.e1, r.indices.e0, r.indices.e3, r.indices.e2⟩
          screen_points := ⟨r.screen_points.e1, r.screen_points.e0,
            r.screen_points.e3, r.screen_points.e2⟩
          rw_attribute := { r.rw_attribute with
            control := r.rw_attribute.control ^^^ env.VDP1_CMDT_CHAR_FLIP_H } })
      else id) rt) :=
  polygon_orient_eq_of env rt _ _ Iff.rfl Iff.rfl

theorem or4_eq_zero_left (a b c d : Nat) (h : a ||| b ||| c ||| d = 0) : a = 0 := by
  apply Nat.eq_of_testBit_eq
  intro k
  have hk : (a ||| b ||| c ||| d).testBit k = false := by rw [h]; simp
  simp only [Nat.testBit_or, Bool.or_eq_false_iff] at hk
  simp [hk.1.1.1]

/-- The oriented working state of a polygon whose vertex 0 is off-screen. -/
theorem polygon_oriented_of_flags0 (env : Env) (s : State) (i : Nat)
    (h0 : (polygon_clip_flags env s i).e0 ≠ 0) :
    polygon_oriented env s i =
      _polygon_orient env { _clip_flags_calculate env (polygon_gather s i) with
        indices := s.render.mesh.polygons i } := by
  have hor : ¬ (_clip_flags_calculate env (polygon_gather s i)).or_flags = CLIP_FLAGS_NONE := by
    intro h
    exact h0 (or4_eq_zero_left _ _ _ _ h)
  unfold polygon_oriented
  simp only []
  rw [if_neg (by exact hor)]

/-- The record a visible polygon is written to, and the working state it is written
from. -/
theorem polygon_visible_record (env : Env) (s : State) (i : Nat)
    (hv : polygon_visible env s i) :
    (render_mesh_transform_polygon env s i).render.render_transform = polygon_lit env s i ∧
      (render_mesh_transform_polygon env s i).render.cmdts_pool s.render.cmdts =
        _cmdt_process env (polygon_lit env s i) (s.render.cmdts_pool s.render.cmdts) ∧
      (render_mesh_transform_polygon env s i).sort =
        s.sort ++ [(s.render.cmdts,
          int32 (env.fix16_int32_mul (polygon_depth env s i) s.render.sort_scale))] := by
  rcases polygon_step_cases env s i with ⟨h0, _⟩ | ⟨_, h0, _⟩ | ⟨_, _, h0, _⟩ |
    ⟨_, _, _, _, _, hs, hrt, hpool, _⟩
  · exact absurd h0 hv.1
  · exact absurd h0 hv.2.1
  · exact absurd hv.2.2 h0
  · refine ⟨hrt, ?_, hs⟩
    rw [hpool]
    simp [arr_set]

theorem cmdt_process_fields (env : Env) (rt : render_transform_t) (c : vdp1_cmdt_t) :
    (_cmdt_process env rt c).cmd_vertices = rt.screen_points ∧
      (_cmdt_process env rt c).cmd_ctrl =
        env.VDP1_CMDT_LINK_TYPE_JUMP_ASSIGN ||| (rt.rw_attribute.control &&& 0x3F) ∧
      (_cmdt_process env rt c).cmd_pmod = rt.rw_attribute.draw_mode := by
  unfold _cmdt_process
  simp only []
  refine ⟨rfl, ?_, ?_⟩ <;> split <;> rfl

/-- C15 (counterexample): a double-sided quad whose vertex 1 lies left of the screen while
vertex 0 is on-screen survives culling and has the left bit in the OR of its clip masks,
but it is emitted with its points and indices in mesh order and with the control word of
the source attribute: nothing is swapped and the horizontal flip is not toggled. -/
theorem straddle_without_swap :
    polygon_visible env0
        (quad_state ⟨-100, 50⟩ ⟨-200, -50⟩ ⟨100, -50⟩ ⟨100, 50⟩ 65536 512) 0 ∧
      polygon_or_flags env0
        (quad_state ⟨-100, 50⟩ ⟨-200, -50⟩ ⟨100, -50⟩ ⟨100, 50⟩ 65536 512) 0
        &&& CLIP_FLAGS_LR env0 ≠ 0 ∧
      ((render_mesh_transform_polygon env0
        (quad_state ⟨-100, 50⟩ ⟨-200, -50⟩ ⟨100, -50⟩ ⟨100, 50⟩ 65536 512)
        0).render.cmdts_pool 0).cmd_vertices =
        ⟨⟨-100, 50⟩, ⟨-200, -50⟩, ⟨100, -50⟩, ⟨100, 50⟩⟩ ∧
      (render_mesh_transform_polygon env0
        (quad_state ⟨-100, 50⟩ ⟨-200, -50⟩ ⟨100, -50⟩ ⟨100, 50⟩ 65536 512)
        0).render.render_transform.indices = ⟨0, 1, 2, 3⟩ ∧
      (render_mesh_transform_polygon env0
        (quad_state ⟨-100, 50⟩ ⟨-200, -50⟩ ⟨100, -50⟩ ⟨100, 50⟩ 65536 512)
        0).render.render_transform.rw_attribute.control = 512 ∧
      ((render_mesh_transform_polygon env0
        (quad_state ⟨-100, 50⟩ ⟨-200, -50⟩ ⟨100, -50⟩ ⟨100, 50⟩ 65536 512)
        0).render.cmdts_pool 0).cmd_ctrl = 0x1000 := by
  refine ⟨by decide, by decide, by decide, by decide, by decide, by decide⟩

/-- C15 (amended): for every polygon that survives culling and whose vertex 0 violates
the left or the right screen bound, the index and screen-point pairs at slots (0,1) and
(3,2) are swapped relative to the mesh order and the control word is XORed once with the
horizontal-flip bit. This is the emitted record when vertex 0 violates neither the top nor
the bottom bound; when it does, the pairs (0,3) and (1,2) are swapped on top and the
control word is also XORed with the vertical-flip bit. -/
theorem left_right_orientation (env : Env) (s : State) (i : Nat)
    (hv : polygon_visible env s i)
    (hlr : (polygon_clip_flags env s i).e0 &&& CLIP_FLAGS_LR env ≠ 0) :
    (¬ (polygon_clip_flags env s i).e0 &&& CLIP_FLAGS_TB env ≠ 0 →
        ((render_mesh_transform_polygon env s i).render.cmdts_pool s.render.cmdts).cmd_vertices
          = ⟨(polygon_screen_points s i).e1, (polygon_screen_points s i).e0,
              (polygon_screen_points s i).e3, (polygon_screen_points s i).e2⟩ ∧
        (render_mesh_transform_polygon env s i).render.render_transform.indices =
          ⟨(s.render.mesh.polygons i).e1, (s.render.mesh.polygons i).e0,
            (s.render.mesh.polygons i).e3, (s.render.mesh.polygons i).e2⟩ ∧
        (render_mesh_transform_polygon env s i).render.render_transform.rw_attribute.control =
          (s.render.mesh.attributes i).control ^^^ env.VDP1_CMDT_CHAR_FLIP_H ∧
        ((render_mesh_transform_polygon env s i).render.cmdts_pool s.render.cmdts).cmd_ctrl =
          env.VDP1_CMDT_LINK_TYPE_JUMP_ASSIGN |||
            (((s.render.mesh.attributes i).control ^^^ env.VDP1_CMDT_CHAR_FLIP_H) &&& 0x3F)) ∧
      ((polygon_clip_flags env s i).e0 &&& CLIP_FLAGS_TB env ≠ 0 →
        ((render_mesh_transform_polygon env s i).render.cmdts_pool s.render.cmdts).cmd_vertices
          = ⟨(polygon_screen_points s i).e2, (polygon_screen_points s i).e3,
              (polygon_screen_points s i).e0, (polygon_screen_points s i).e1⟩ ∧
        (render_mesh_transform_polygon env s i).render.render_transform.indices =
          ⟨(s.render.mesh.polygons i).e2, (s.render.mesh.polygons i).e3,
            (s.render.mesh.polygons i).e0, (s.render.mesh.polygons i).e1⟩ ∧
        (render_mesh_transform_polygon env s i).render.render_transform.rw_attribute.control =
          (s.render.mesh.attributes i).control ^^^ env.VDP1_CMDT_CHAR_FLIP_H ^^^
            env.VDP1_CMDT_CHAR_FLIP_V) := by
  obtain ⟨hrt, hrec, _⟩ := polygon_visible_record env s i hv
  have h0 : (polygon_clip_flags env s i).e0 ≠ 0 := by
    intro h
    rw [h] at hlr
    simp at hlr
  have hO := polygon_oriented_of_flags0 env s i h0
  rw [polygon_orient_eq] at hO
  have hlr2 : ({ _clip_flags_calculate env (polygon_gather s i) with
      indices := s.render.mesh.polygons i } : render_transform_t).clip_flags.e0 &&&
      CLIP_FLAGS_LR env ≠ 0 := hlr
  rw [if_pos hlr2] at hO
  obtain ⟨f1, f2, _⟩ := cmdt_process_fields env (polygon_lit env s i)
    (s.render.cmdts_pool s.render.cmdts)
  constructor
  · intro htb
    have htb2 : ¬ ({ _clip_flags_calculate env (polygon_gather s i) with
        indices := s.render.mesh.polygons i } : render_transform_t).clip_flags.e0 &&&
        CLIP_FLAGS_TB env ≠ 0 := htb
    rw [if_neg htb2] at hO
    refine ⟨?_, ?_, ?_, ?_⟩
    · rw [hrec, f1]; unfold polygon_lit; rw [hO]; rfl
    · rw [hrt]; unfold polygon_lit; rw [hO]; rfl
    · rw [hrt]; unfold polygon_lit; rw [hO]; rfl
    · rw [hrec, f2]; unfold polygon_lit; rw [hO]; rfl
  · intro htb
    have htb2 : ({ _clip_flags_calculate env (polygon_gather s i) with
        indices := s.render.mesh.polygons i } : render_transform_t).clip_flags.e0 &&&
        CLIP_FLAGS_TB env ≠ 0 := htb
    rw [if_pos htb2] at hO
    refine ⟨?_, ?_, ?_⟩
    · rw [hrec, f1]; unfold polygon_lit; rw [hO]; rfl
    · rw [hrt]; unfold polygon_lit; rw [hO]
    · rw [hrt]; unfold polygon_lit; rw [hO]; rfl

/-- Witness of C15 (amended): a double-sided quad whose vertex 0 alone lies left of the
screen is emitted with the pairs (0,1) and (3,2) swapped and the horizontal flip set. -/
theorem left_right_orientation_witness :
    polygon_visible env0
        (quad_state ⟨-200, 50⟩ ⟨-100, -50⟩ ⟨100, -50⟩ ⟨100, 50⟩ 65536 512) 0 ∧
      (polygon_clip_flags env0
        (quad_state ⟨-200, 50⟩ ⟨-100, -50⟩ ⟨100, -50⟩ ⟨100, 50⟩ 65536 512) 0).e0
        &&& CLIP_FLAGS_LR env0 ≠ 0 ∧
      (render_mesh_transform_polygon env0
        (quad_state ⟨-200, 50⟩ ⟨-100, -50⟩ ⟨100, -50⟩ ⟨100, 50⟩ 65536 512)
        0).render.render_transform.indices =
        ⟨((quad_state ⟨-200, 50⟩ ⟨-100, -50⟩ ⟨100, -50⟩ ⟨100, 50⟩ 65536
            512).render.mesh.polygons 0).e1,
          ((quad_state ⟨-200, 50⟩ ⟨-100, -50⟩ ⟨100, -50⟩ ⟨100, 50⟩ 65536
            512).render.mesh.polygons 0).e0,
          ((quad_state ⟨-200, 50⟩ ⟨-100, -50⟩ ⟨100, -50⟩ ⟨100, 50⟩ 65536
            512).render.mesh.polygons 0).e3,
          ((quad_state ⟨-200, 50⟩ ⟨-100, -50⟩ ⟨100, -50⟩ ⟨100, 50⟩ 65536
            512).render.mesh.polygons 0).e2⟩ ∧
      ((render_mesh_transform_polygon env0
        (quad_state ⟨-200, 50⟩ ⟨-100, -50⟩ ⟨100, -50⟩ ⟨100, 50⟩ 65536 512)
        0).render.cmdts_pool 0).cmd_vertices =
        ⟨⟨-100, -50⟩, ⟨-200, 50⟩, ⟨100, 50⟩, ⟨100, -50⟩⟩ ∧
      ((render_mesh_transform_polygon env0
        (quad_state ⟨-200, 50⟩ ⟨-100, -50⟩ ⟨100, -50⟩ ⟨100, 50⟩ 65536 512)
        0).render.cmdts_pool 0).cmd_ctrl = 0x1010 :=
  ⟨by decide, by decide,
    ((left_right_orientation env0 _ 0 (by decide) (by decide)).1 (by decide)).2.1,
    by decide, by decide⟩

/-- C16 (failing input): a double-sided quad whose vertices 0 and 1 lie left of the screen
and whose vertices 2 and 3 are on-screen survives culling with AND mask 0 and OR mask 1.
`_polygon_orient` swaps the slots (0,1) and (3,2), so the point written to
`cmd_vertices[0]` is vertex 1, (-200, -50), whose clip mask is 1: vertex A is off-screen
although two corners of the polygon are on-screen. -/
theorem vertex_a_off_screen :
    polygon_visible env0
        (quad_state ⟨-200, 50⟩ ⟨-200, -50⟩ ⟨100, -50⟩ ⟨100, 50⟩ 65536 512) 0 ∧
      polygon_and_flags env0
        (quad_state ⟨-200, 50⟩ ⟨-200, -50⟩ ⟨100, -50⟩ ⟨100, 50⟩ 65536 512) 0 = 0 ∧
      polygon_or_flags env0
        (quad_state ⟨-200, 50⟩ ⟨-200, -50⟩ ⟨100, -50⟩ ⟨100, 50⟩ 65536 512) 0 = 1 ∧
      polygon_clip_flags env0
        (quad_state ⟨-200, 50⟩ ⟨-200, -50⟩ ⟨100, -50⟩ ⟨100, 50⟩ 65536 512) 0 = ⟨1, 1, 0, 0⟩ ∧
      (_polygon_orient env0 { _clip_flags_calculate env0 (polygon_gather
        (quad_state ⟨-200, 50⟩ ⟨-200, -50⟩ ⟨100, -50⟩ ⟨100, 50⟩ 65536 512) 0) with
        indices := ⟨0, 1, 2, 3⟩ }).screen_points.e0 = ⟨-200, -50⟩ ∧
      ((render_mesh_transform_polygon env0
        (quad_state ⟨-200, 50⟩ ⟨-200, -50⟩ ⟨100, -50⟩ ⟨100, 50⟩ 65536 512)
        0).render.cmdts_pool 0).cmd_vertices.e0 = ⟨-200, -50⟩ ∧
      _clip_flags_lrtb_calculate env0 ((render_mesh_transform_polygon env0
        (quad_state ⟨-200, 50⟩ ⟨-200, -50⟩ ⟨100, -50⟩ ⟨100, 50⟩ 65536 512)
        0).render.cmdts_pool 0).cmd_vertices.e0 = 1 := by
  refine ⟨by decide, by decide, by decide, by decide, by decide, by decide, by decide⟩

/-! ## Pool prefix -/

theorem render_start_pool_inv (s : State) :
    (render_start s).render.cmdts = 0 ∧ (render_start s).render.cmdt_count = 0 ∧
      pool_prefix_inv (render_start s) :=
  ⟨rfl, rfl, rfl, rfl⟩

theorem polygon_step_pool_inv (env : Env) (s : State) (i : Nat) (h : pool_prefix_inv s) :
    pool_prefix_inv (render_mesh_transform_polygon env s i) := by
  obtain ⟨h1, h2⟩ := h
  rcases polygon_step_cases env s i with ⟨_, hne⟩ | ⟨_, _, hne⟩ | ⟨_, _, _, hne⟩ |
    ⟨_, _, _, hc, hn, hs, _⟩
  · exact ⟨by rw [hne.1, hne.2.1, h1], by rw [hne.2.2.2.1, hne.2.1, h2]⟩
  · exact ⟨by rw [hne.1, hne.2.1, h1], by rw [hne.2.2.2.1, hne.2.1, h2]⟩
  · exact ⟨by rw [hne.1, hne.2.1, h1], by rw [hne.2.2.2.1, hne.2.1, h2]⟩
  · refine ⟨by rw [hc, hn, h1], ?_⟩
    rw [hs, hn, List.map_append, h2, List.range_succ, h1]
    rfl

theorem polygon_loop_pool_inv (env : Env) (s : State) (n : Nat) (h : pool_prefix_inv s) :
    pool_prefix_inv ((List.range n).foldl (render_mesh_transform_polygon env) s) := by
  induction n with
  | zero => exact h
  | succ n ih =>
    rw [List.range_succ, List.foldl_append]
    exact polygon_step_pool_inv env _ n ih

theorem pass_start_frame (env : Env) (s : State) (mesh : mesh_t) :
    (pass_start env s mesh).render.cmdts = s.render.cmdts ∧
      (pass_start env s mesh).render.cmdt_count = s.render.cmdt_count ∧
      (pass_start env s mesh).sort = s.sort ∧
      (pass_start env s mesh).render.cmdts_pool = s.render.cmdts_pool := by
  unfold pass_start
  rw [transform_eq]
  exact ⟨rfl, rfl, rfl, rfl⟩

theorem pass_start_pool_inv (env : Env) (s : State) (mesh : mesh_t) (h : pool_prefix_inv s) :
    pool_prefix_inv (pass_start env s mesh) := by
  obtain ⟨f1, f2, f3, _⟩ := pass_start_frame env s mesh
  exact ⟨by rw [f1, f2, h.1], by rw [f3, f2, h.2]⟩

theorem render_mesh_transform_pool_inv (env : Env) (s : State) (mesh : mesh_t)
    (h : pool_prefix_inv s) : pool_prefix_inv (render_mesh_transform env s mesh) := by
  rw [render_mesh_transform_eq]
  exact polygon_loop_pool_inv env _ _ (pass_start_pool_inv env s mesh h)

theorem passes_pool_inv (env : Env) (meshes : List mesh_t) : ∀ (s : State),
    pool_prefix_inv s → pool_prefix_inv (meshes.foldl (render_mesh_transform env) s) := by
  induction meshes with
  | nil => intro s h; exact h
  | cons m rest ih =>
    intro s h
    exact ih _ (render_mesh_transform_pool_inv env s m h)

/-- C17: `render_start` puts the cursor at the pool base and the visible count at zero.
After `render_start` and any number of `render_mesh_transform` passes the cursor offset
equals the visible count and the links in the depth sort are `0 .. cmdt_count - 1` in
insertion order; this also holds after every polygon of a further pass. A polygon that
passes the three tests when the count is `k` is written to pool slot `k` and inserted with
link `k`, and the count becomes `k + 1`; a pass adds exactly the number of its polygons
that pass the tests; and `render` hands the pool base and the visible count, that is the
slots `0 .. cmdt_count - 1`, to the display. -/
theorem pool_prefix_invariant (env : Env) (s : State) (meshes : List mesh_t) (t : State)
    (ht : t = meshes.foldl (render_mesh_transform env) (render_start s)) :
    ((render_start s).render.cmdts = 0 ∧ (render_start s).render.cmdt_count = 0) ∧
      t.render.cmdts = t.render.cmdt_count ∧
      t.sort.map Prod.fst = List.range t.render.cmdt_count ∧
      (∀ mesh n, pool_prefix_inv ((List.range n).foldl (render_mesh_transform_polygon env)
        (pass_start env t mesh))) ∧
      (∀ mesh, (render_mesh_transform env t mesh).render.cmdt_count =
        t.render.cmdt_count + visible_count env (pass_start env t mesh) mesh.polygons_count) ∧
      (∀ (u : State) (i : Nat), pool_prefix_inv u → polygon_visible env u i →
        (render_mesh_transform_polygon env u i).render.cmdts_pool =
          arr_set u.render.cmdts_pool u.render.cmdt_count
            (_cmdt_process env (polygon_lit env u i)
              (u.render.cmdts_pool u.render.cmdt_count)) ∧
        (render_mesh_transform_polygon env u i).sort =
          u.sort ++ [(u.render.cmdt_count,
            int32 (env.fix16_int32_mul (polygon_depth env u i) u.render.sort_scale))] ∧
        (render_mesh_transform_polygon env u i).render.cmdt_count = u.render.cmdt_count + 1) ∧
      (∀ (u : State) (i : Nat), ¬ polygon_visible env u i →
        (render_mesh_transform_polygon env u i).render.cmdt_count = u.render.cmdt_count) ∧
      (∀ subr_index cmdt_index, t.render.cmdt_count ≠ 0 →
        (render env t subr_index cmdt_index).trace =
          t.trace ++ [Event.sort_iterate,
            Event.vdp1_sync_cmdt_put 0 t.render.cmdt_count cmdt_index,
            Event.light_gst_put]) := by
  have hp : pool_prefix_inv t := by
    rw [ht]
    exact passes_pool_inv env meshes _ (render_start_pool_inv s).2.2
  refine ⟨⟨rfl, rfl⟩, hp.1, hp.2, fun mesh n => ?_, fun mesh => ?_, fun u i hu hv => ?_,
    fun u i hv => ?_, fun subr_index cmdt_index hN => ?_⟩
  · exact polygon_loop_pool_inv env _ n (pass_start_pool_inv env t mesh hp)
  · rw [render_mesh_transform_eq,
      (polygon_loop_counts env (pass_start env t mesh) mesh.polygons_count).2.2.1,
      (pass_start_frame env t mesh).2.1]
  · rcases polygon_step_cases env u i with ⟨h0, _⟩ | ⟨_, h0, _⟩ | ⟨_, _, h0, _⟩ |
      ⟨_, _, _, _, hn, hs, _, hpool, _⟩
    · exact absurd h0 hv.1
    · exact absurd h0 hv.2.1
    · exact absurd hv.2.2 h0
    · rw [hu.1] at hs hpool
      exact ⟨hpool, hs, hn⟩
  · have := (polygon_step_counts env u i).2.1
    rw [if_neg hv] at this
    exact this
  · exact (render_nonempty env t subr_index cmdt_index hN).1

/-- Witness of C17: after `render_start` and two passes over the three visible quads of
`three_quads_mesh` the cursor and the visible count are 6 and the depth sort holds the
links 0 to 5 in this order. -/
theorem pool_prefix_invariant_witness :
    ([three_quads_mesh, three_quads_mesh].foldl (render_mesh_transform env0)
        (render_start state0)).render.cmdts =
      ([three_quads_mesh, three_quads_mesh].foldl (render_mesh_transform env0)
        (render_start state0)).render.cmdt_count ∧
      ([three_quads_mesh, three_quads_mesh].foldl (render_mesh_transform env0)
        (render_start state0)).render.cmdt_count = 6 ∧
      ([three_quads_mesh, three_quads_mesh].foldl (render_mesh_transform env0)
        (render_start state0)).sort.map Prod.fst = [0, 1, 2, 3, 4, 5] :=
  ⟨(pool_prefix_invariant env0 state0 [three_quads_mesh, three_quads_mesh] _ rfl).2.1,
    by decide, by decide⟩

/-! ## Bucket index -/

theorem scaled_depth_in_range (S far d : Int) (hS : 1 ≤ S) (hfar : 0 < far) (hd0 : 0 < d)
    (hd : d ≤ far) :
    0 ≤ fix16_int32_mul d (fix16_div (FIX16 (S - 1)) far) ∧
      fix16_int32_mul d (fix16_div (FIX16 (S - 1)) far) ≤ S - 1 := by
  have hA : 0 ≤ FIX16 (S - 1) * 65536 := by unfold FIX16; nlinarith
  have hx0 : 0 ≤ Int.tdiv (FIX16 (S - 1) * 65536) far := Int.tdiv_nonneg hA (le_of_lt hfar)
  have hxF : Int.tdiv (FIX16 (S - 1) * 65536) far * far ≤ FIX16 (S - 1) * 65536 := by
    rw [Int.tdiv_eq_ediv hA (le_of_lt hfar)]
    exact Int.ediv_mul_le _ (ne_of_gt hfar)
  have hq0 : 0 ≤ fix16_div (FIX16 (S - 1)) far := by unfold fix16_div; omega
  have hqx : fix16_div (FIX16 (S - 1)) far ≤ Int.tdiv (FIX16 (S - 1) * 65536) far := by
    unfold fix16_div; omega
  have hqF : fix16_div (FIX16 (S - 1)) far * far ≤ FIX16 (S - 1) * 65536 :=
    le_trans (mul_le_mul_of_nonneg_right hqx (le_of_lt hfar)) hxF
  have hdq : d * fix16_div (FIX16 (S - 1)) far ≤ (S - 1) * 4294967296 := by
    have h1 : d * fix16_div (FIX16 (S - 1)) far ≤ far * fix16_div (FIX16 (S - 1)) far :=
      mul_le_mul_of_nonneg_right hd hq0
    have h2 : FIX16 (S - 1) * 65536 = (S - 1) * 4294967296 := by unfold FIX16; ring
    rw [mul_comm far] at h1
    omega
  have hdq0 : 0 ≤ d * fix16_div (FIX16 (S - 1)) far := mul_nonneg (le_of_lt hd0) hq0
  unfold fix16_int32_mul
  rw [Int.tdiv_eq_ediv hdq0 (by norm_num)]
  constructor
  · exact Int.ediv_nonneg hdq0 (by norm_num)
  · calc d * fix16_div (FIX16 (S - 1)) far / 4294967296
        ≤ (S - 1) * 4294967296 / 4294967296 := Int.ediv_le_ediv (by norm_num) hdq
      _ = S - 1 := Int.mul_ediv_cancel _ (by norm_num)

/-- C18: with the fixed-point quotient and integer product of the spec and a sort scale
`fix16_div(FIX16(SORT_DEPTH - 1), far)`, `0 < near <= far <= FIX16(2048)`, every emitted
polygon whose depth metric `d` is at most `far` is inserted with the scaled depth
`fix16_int32_mul(d, sort_scale)`, which lies in `[0, SORT_DEPTH - 1]`. There is no
far-plane test: an on-screen quad at depth 2048 with `far = 1024` and 512 buckets is
emitted and inserted with scaled depth 1022. -/
theorem bucket_index_range :
    (∀ (env : Env) (s : State) (i : Nat),
      env.fix16_int32_mul = fix16_int32_mul → env.fix16_div = fix16_div →
      1 ≤ env.SORT_DEPTH → env.SORT_DEPTH ≤ 32768 →
      s.render.sort_scale = env.fix16_div (FIX16 (env.SORT_DEPTH - 1)) s.render.far →
      0 < s.render.near → s.render.near ≤ s.render.far → s.render.far ≤ FIX16 2048 →
      polygon_visible env s i → polygon_depth env s i ≤ s.render.far →
      (render_mesh_transform_polygon env s i).sort =
          s.sort ++ [(s.render.cmdts,
            fix16_int32_mul (polygon_depth env s i) s.render.sort_scale)] ∧
        0 ≤ fix16_int32_mul (polygon_depth env s i) s.render.sort_scale ∧
        fix16_int32_mul (polygon_depth env s i) s.render.sort_scale ≤ env.SORT_DEPTH - 1) ∧
      (polygon_visible env_fix16 (far_quad_state 134217728) 0 ∧
        (far_quad_state 134217728).render.sort_scale =
          env_fix16.fix16_div (FIX16 (env_fix16.SORT_DEPTH - 1))
            (far_quad_state 134217728).render.far ∧
        (0 < (far_quad_state 134217728).render.near ∧
          (far_quad_state 134217728).render.near ≤ (far_quad_state 134217728).render.far ∧
          (far_quad_state 134217728).render.far ≤ FIX16 2048) ∧
        (far_quad_state 134217728).render.far <
          polygon_depth env_fix16 (far_quad_state 134217728) 0 ∧
        (render_mesh_transform_polygon env_fix16 (far_quad_state 134217728) 0).sort =
          [(0, 1022)] ∧
        env_fix16.SORT_DEPTH - 1 < 1022) := by
  constructor
  · intro env s i hmul hdiv hS1 hS2 hscale hnear hnf _ hv hd
    have hd0 : 0 < polygon_depth env s i := by
      have := hv.2.1
      omega
    have hfar : 0 < s.render.far := by omega
    obtain ⟨r0, r1⟩ := scaled_depth_in_range env.SORT_DEPTH s.render.far
      (polygon_depth env s i) hS1 hfar hd0 hd
    rw [hdiv] at hscale
    rw [← hscale] at r0 r1
    obtain ⟨_, _, hs⟩ := polygon_visible_record env s i hv
    refine ⟨?_, r0, r1⟩
    rw [hs, hmul, int32_of_range _ (by omega) (by omega)]
  · refine ⟨by decide, by decide, ⟨by decide, by decide, by decide⟩, by decide, by decide,
      by decide⟩

/-- Witness of C18: with `far = 1024` and 512 buckets, an on-screen quad at depth 512 is
inserted with scaled depth 255. -/
theorem bucket_index_range_witness :
    (polygon_visible env_fix16 (far_quad_state 33554432) 0 ∧
      polygon_depth env_fix16 (far_quad_state 33554432) 0 ≤
        (far_quad_state 33554432).render.far) ∧
      (render_mesh_transform_polygon env_fix16 (far_quad_state 33554432) 0).sort =
        (far_quad_state 33554432).sort ++ [((far_quad_state 33554432).render.cmdts,
          fix16_int32_mul (polygon_depth env_fix16 (far_quad_state 33554432) 0)
            (far_quad_state 33554432).render.sort_scale)] ∧
      fix16_int32_mul (polygon_depth env_fix16 (far_quad_state 33554432) 0)
        (far_quad_state 33554432).render.sort_scale = 255 :=
  ⟨⟨by decide, by decide⟩,
    (bucket_index_range.1 env_fix16 (far_quad_state 33554432) 0 rfl rfl (by decide)
      (by decide) (by decide) (by decide) (by decide) (by decide) (by decide)
      (by decide)).1,
    by decide⟩

end Mic3d
